import Mathlib

/-!
# RootBot — shallow embedding and verification

Shallow embedding of the stream-tracking core of the RootBot repository:
the catalog/subscription registry (`streamRegistry.ts`), the identifier
resolver (`resolver` module), and the poll-cycle engine (`streams.ts`).
Timestamps are epoch milliseconds modelled as `Int`; JavaScript truthiness
on optional numbers/strings is modelled explicitly; network calls are
modelled as oracle inputs; the notification post is the only operation
that can throw inside the per-entity try block, modelled by an abort flag.
-/

namespace RootBot

/-- JS truthiness of an optional number (`undefined` and `0` are falsy). -/
def truthyInt : Option Int → Bool
  | none => false
  | some n => n != 0

/-- JS truthiness of an optional string (`undefined` and `""` are falsy). -/
def truthyStr : Option String → Bool
  | none => false
  | some s => s != ""

inductive Platform
  | youtube
  | twitch
deriving DecidableEq, Repr

/-- The string used for a platform in catalog ids and state keys. -/
def Platform.str : Platform → String
  | .youtube => "youtube"
  | .twitch => "twitch"

structure StreamerCatalogEntry where
  id : String
  platform : Platform
  externalId : String
  displayName : String
deriving DecidableEq, Repr

/-- JS `String.prototype.trim` (whitespace at both ends removed), on the
character list of a string. -/
def trimChars (l : List Char) : List Char :=
  ((l.dropWhile Char.isWhitespace).reverse.dropWhile Char.isWhitespace).reverse

def strTrim (s : String) : String := String.mk (trimChars s.data)

/-- JS `String.prototype.toLowerCase` (on the ASCII inputs that matter here). -/
def strLower (s : String) : String := String.mk (s.data.map Char.toLower)

/-- `s.startsWith(pre)`. -/
def strStartsWith (s pre : String) : Bool :=
  s.data.take pre.data.length = pre.data

/-! ## streamRegistry.ts -/

/-- `normalizeId` from streamRegistry.ts: trim and lowercase. -/
def normalizeId (v : String) : String := strLower (strTrim v)

/-- `makeCatalogId` from streamRegistry.ts. -/
def makeCatalogId (platform : Platform) (externalId : String) : String :=
  platform.str ++ ":" ++ normalizeId externalId

/-- In-place mutation of the first entry with the given id
(`existing.displayName = displayName` on the object found by `find`). -/
def updateFirstDisplayName : List StreamerCatalogEntry → String → String →
    List StreamerCatalogEntry
  | [], _, _ => []
  | x :: xs, id, d =>
      if x.id = id then { x with displayName := d } :: xs
      else x :: updateFirstDisplayName xs id d

/-- `upsertCatalogEntry` from streamRegistry.ts, acting on the catalog list.
Returns (new catalog, returned entry, isNewCatalogEntry). -/
def upsertCatalogEntry (catalog : List StreamerCatalogEntry) (platform : Platform)
    (externalId displayName : String) :
    List StreamerCatalogEntry × StreamerCatalogEntry × Bool :=
  let id := makeCatalogId platform externalId
  match catalog.find? (fun x => x.id = id) with
  | some existing =>
      if displayName ≠ "" ∧ existing.displayName ≠ displayName then
        (updateFirstDisplayName catalog id displayName,
         { existing with displayName := displayName }, false)
      else
        (catalog, existing, false)
  | none =>
      let entry : StreamerCatalogEntry :=
        { id := id, platform := platform, externalId := externalId,
          displayName := displayName }
      (catalog ++ [entry], entry, true)

/-- `subscribeCatalogEntry` from streamRegistry.ts, acting on the
subscription list. Returns (new list, subscribed?). -/
def subscribeCatalogEntry (subs : List String) (entryId : String) :
    List String × Bool :=
  if subs.contains entryId then (subs, false)
  else (subs ++ [entryId], true)

/-- `unsubscribeCommunityEntryByIndex` from streamRegistry.ts:
1-based index into the raw subscription list; out-of-range is a no-op;
the returned entry is looked up in the catalog by the removed id. -/
def unsubscribeCommunityEntryByIndex (subs : List String)
    (catalog : List StreamerCatalogEntry) (index : Int) :
    List String × Option StreamerCatalogEntry :=
  let i := index - 1
  if i < 0 ∨ (subs.length : Int) ≤ i then (subs, none)
  else
    let n := i.toNat
    (subs.eraseIdx n,
     match subs.get? n with
     | some rid => catalog.find? (fun x => x.id = rid)
     | none => none)

/-- The `Map` built in `getCommunityCatalogEntries`
(`new Map(catalog.map(e => [e.id, e]))`): for duplicate ids the last
catalog entry wins. -/
def lastById (catalog : List StreamerCatalogEntry) (id : String) :
    Option StreamerCatalogEntry :=
  catalog.reverse.find? (fun e => e.id = id)

/-- `getCommunityCatalogEntries` from streamRegistry.ts: map each
subscribed id through the catalog and drop the ids with no entry. -/
def getCommunityCatalogEntries (catalog : List StreamerCatalogEntry)
    (subs : List String) : List StreamerCatalogEntry :=
  (subs.map (lastById catalog)).reduceOption

/-! ## Identifier resolver (resolver module) -/

structure ResolvedStreamerInput where
  platform : Platform
  externalId : String
  displayName : String
deriving DecidableEq, Repr

structure HintResult where
  hint : Option Platform
  query : String
deriving DecidableEq, Repr

/-- `value.slice(value.indexOf(":") + 1)` on a value known to contain a colon:
drop everything up to and including the first `:`. -/
def afterFirstColon : List Char → List Char
  | [] => []
  | c :: rest => if c = ':' then rest else afterFirstColon rest

/-- `parseHint` from the resolver: strip an explicit `yt:`/`youtube:`/`tw:`/`twitch:`
platform hint (matched on the lowercased trimmed input). -/
def parseHint (raw : String) : HintResult :=
  let value := strTrim raw
  let lower := strLower value
  if strStartsWith lower "yt:" ∨ strStartsWith lower "youtube:" then
    ⟨some .youtube, strTrim (String.mk (afterFirstColon value.data))⟩
  else if strStartsWith lower "tw:" ∨ strStartsWith lower "twitch:" then
    ⟨some .twitch, strTrim (String.mk (afterFirstColon value.data))⟩
  else ⟨none, value⟩

/-- JS `\w`: `[A-Za-z0-9_]`. -/
def isWordChar (c : Char) : Bool := c.isAlphanum ∨ c = '_'

/-- Match a (lowercase) literal pattern case-insensitively against the head of
the input, returning the remainder on success. -/
def matchLiteralCI : List Char → List Char → Option (List Char)
  | [], rest => some rest
  | _ :: _, [] => none
  | p :: ps, c :: cs => if c.toLower = p then matchLiteralCI ps cs else none

/-- The capture `(UC[\w-]{22})` (under the `i` flag) right after the literal:
two chars case-insensitively equal to `u`,`c`, then exactly 22 of `[\w-]`;
the captured text keeps its original case. -/
def ytChannelCapture (rest : List Char) : Option (List Char) :=
  match rest with
  | u :: c :: tail =>
      if u.toLower = 'u' ∧ c.toLower = 'c' then
        let body := tail.take 22
        if body.length = 22 ∧ body.all (fun ch => isWordChar ch ∨ ch = '-') then
          some (u :: c :: body)
        else none
      else none
  | _ => none

/-- Leftmost match of `/youtube\.com\/channel\/(UC[\w-]{22})/i`, returning the
capture group. -/
def findYtChannelUrl : List Char → Option (List Char)
  | [] => none
  | l@(_ :: rest) =>
      (match matchLiteralCI "youtube.com/channel/".data l with
       | some tail => ytChannelCapture tail
       | none => none) <|> findYtChannelUrl rest

/-- Leftmost match of `/twitch\.tv\/([a-zA-Z0-9_]+)/i`, returning the capture
group (the maximal run of login characters after the literal, nonempty). -/
def findTwitchUrl : List Char → Option (List Char)
  | [] => none
  | l@(_ :: rest) =>
      (match matchLiteralCI "twitch.tv/".data l with
       | some tail =>
           let run := tail.takeWhile (fun c => c.isAlphanum ∨ c = '_')
           if run.isEmpty then none else some run
       | none => none) <|> findTwitchUrl rest

structure UrlParse where
  platform : Option Platform
  value : Option String
deriving DecidableEq, Repr

/-- `parseKnownUrl` from the resolver: YouTube channel URL first, then
`twitch.tv/<login>`. -/
def parseKnownUrl (input : String) : UrlParse :=
  let clean := strTrim input
  match findYtChannelUrl clean.data with
  | some cap => ⟨some .youtube, some (String.mk cap)⟩
  | none =>
      match findTwitchUrl clean.data with
      | some cap => ⟨some .twitch, some (String.mk cap)⟩
      | none => ⟨none, none⟩

/-- `isYouTubeChannelId`: `/^UC[\w-]{22}$/` on the trimmed input (case-sensitive). -/
def isYouTubeChannelId (input : String) : Bool :=
  match (strTrim input).data with
  | 'U' :: 'C' :: rest =>
      rest.length = 22 ∧ rest.all (fun ch => isWordChar ch ∨ ch = '-')
  | _ => false

/-- `/^\d+$/`. -/
def isNumericStr (s : String) : Bool :=
  ¬ s.data.isEmpty ∧ s.data.all Char.isDigit

/-- `/^[a-zA-Z0-9_]{3,25}$/` — a syntactically valid Twitch login. -/
def isTwitchLoginShape (s : String) : Bool :=
  3 ≤ s.data.length ∧ s.data.length ≤ 25 ∧
    s.data.all (fun c => c.isAlphanum ∨ c = '_')

structure TwitchUser where
  id : String
  login : String
  display_name : String
deriving DecidableEq, Repr

/-- A query sent to the Twitch `/helix/users` endpoint: by numeric id or by
lowercased login. -/
inductive TwitchQuery
  | byId (q : String)
  | byLogin (q : String)
deriving DecidableEq, Repr

structure YtChannel where
  id : String
  title : Option String
deriving DecidableEq, Repr

structure YtSearchItem where
  channelId : Option String
  channelTitle : Option String
deriving DecidableEq, Repr

/-- Environment for the resolver and the availability check: credentials from
the process environment, the cached YouTube quota marker, the clock, and the
platform endpoints as oracles (`none` = HTTP failure or no item). -/
structure ResolverEnv where
  twitchClientId : Option String
  twitchClientSecret : Option String
  twitchToken : Option String
  twitchUsers : TwitchQuery → Option TwitchUser
  youtubeApiKey : Option String
  ytChannelById : String → Option YtChannel
  ytSearch : String → Option YtSearchItem
  quotaMarker : Option Int
  now : Int

/-- JS `a || b` on strings. -/
def firstNonEmpty (a b : String) : String := if a ≠ "" then a else b

/-- `resolveTwitch`: absent/empty credentials or a failed token fetch are a
non-match; numeric queries go to the id parameter, others to the lowercased
login parameter; a user with a falsy id is a non-match. -/
def resolveTwitch (env : ResolverEnv) (query : String) :
    Option ResolvedStreamerInput :=
  if ¬ truthyStr env.twitchClientId ∨ ¬ truthyStr env.twitchClientSecret then none
  else if ¬ truthyStr env.twitchToken then none
  else
    let q := if isNumericStr query then TwitchQuery.byId query
             else TwitchQuery.byLogin (strLower query)
    match env.twitchUsers q with
    | none => none
    | some user =>
        if user.id = "" then none
        else some ⟨.twitch, user.id,
          firstNonEmpty user.display_name (firstNonEmpty user.login query)⟩

/-- `resolveYouTube`: no API key is a non-match; a channel-id-shaped query uses
the channels endpoint, otherwise the search endpoint. -/
def resolveYouTube (env : ResolverEnv) (query : String) :
    Option ResolvedStreamerInput :=
  if ¬ truthyStr env.youtubeApiKey then none
  else if isYouTubeChannelId query then
    match env.ytChannelById query with
    | none => none
    | some ch =>
        if ch.id = "" then none
        else some ⟨.youtube, ch.id, ch.title.getD ch.id⟩
  else
    match env.ytSearch query with
    | none => none
    | some item =>
        match item.channelId with
        | none => none
        | some cid =>
            if cid = "" then none
            else some ⟨.youtube, cid, item.channelTitle.getD query⟩

/-- Which platform resolver functions an input causes to run. -/
inductive ResolverCall
  | twitch (q : String)
  | youtube (q : String)
deriving DecidableEq, Repr

/-- `resolveStreamerInput`, instrumented with the list of platform resolvers
invoked (in program order; the else-branch queries both concurrently). -/
def resolveStreamerInput (env : ResolverEnv) (rawInput : String) :
    Option ResolvedStreamerInput × List ResolverCall :=
  let hinted := parseHint rawInput
  let urlParsed := parseKnownUrl hinted.query
  let input := urlParsed.value.getD hinted.query
  let hint := urlParsed.platform <|> hinted.hint
  if input = "" then (none, [])
  else if hint = some Platform.youtube then
    (resolveYouTube env input, [.youtube input])
  else if hint = some Platform.twitch then
    (resolveTwitch env input, [.twitch input])
  else if isYouTubeChannelId input then
    (resolveYouTube env input, [.youtube input])
  else if isNumericStr input then
    (resolveTwitch env input, [.twitch input])
  else
    let tw := resolveTwitch env input
    let yt := resolveYouTube env input
    let calls : List ResolverCall := [.twitch input, .youtube input]
    match tw, yt with
    | some t, none => (some t, calls)
    | none, some y => (some y, calls)
    | none, none => (none, calls)
    | some t, some y =>
        (if isTwitchLoginShape input then some t else some y, calls)

/-- A concrete resolver environment with full credentials, one Twitch user
`somename` and a YouTube search that always returns channel `UCzz`. -/
def resolverEnvW : ResolverEnv :=
  { twitchClientId := some "i", twitchClientSecret := some "s",
    twitchToken := some "t",
    twitchUsers := fun q =>
      if q = TwitchQuery.byLogin "somename"
      then some ⟨"77", "somename", "SomeName"⟩ else none,
    youtubeApiKey := some "k", ytChannelById := fun _ => none,
    ytSearch := fun _ => some ⟨some "UCzz", some "Zz"⟩,
    quotaMarker := none, now := 0 }

/-- The effective input of `resolveStreamerInput`
(`urlParsed.value ?? hinted.query`). -/
def resolverInputOf (raw : String) : String :=
  (parseKnownUrl (parseHint raw).query).value.getD (parseHint raw).query

/-- The effective platform of `resolveStreamerInput`
(`urlParsed.platform ?? hinted.hint`): a URL-derived platform wins over an
explicit prefix hint. -/
def resolverHintOf (raw : String) : Option Platform :=
  (parseKnownUrl (parseHint raw).query).platform <|> (parseHint raw).hint

/-- `isYouTubeApiUnavailableForLookup` from commands.ts: no key, or the quota
marker is in the future. -/
def isYouTubeApiUnavailableForLookup (env : ResolverEnv) : Bool :=
  if ¬ truthyStr env.youtubeApiKey then true
  else
    match env.quotaMarker with
    | none => false
    | some u => if env.now ≥ u then false else true

/-- `getUnavailableApisForResolve` from commands.ts. -/
def getUnavailableApisForResolve (env : ResolverEnv) : List String :=
  (if isYouTubeApiUnavailableForLookup env then ["YouTube"] else []) ++
    (if ¬ truthyStr env.twitchClientId ∨ ¬ truthyStr env.twitchClientSecret then
       ["Twitch"]
     else if ¬ truthyStr env.twitchToken then ["Twitch"]
     else [])

/-- The message `addStreamer` sends when resolution fails. -/
inductive ResolveFailReport
  | apiUnavailable (platforms : List String)
  | resolveFailed
deriving DecidableEq, Repr

/-- The failure branch of `addStreamer` in commands.ts (taken when
`resolveStreamerInput` returned null). -/
def addStreamerFailureReport (env : ResolverEnv) : ResolveFailReport :=
  let unavailable := getUnavailableApisForResolve env
  if unavailable ≠ [] then .apiUnavailable unavailable else .resolveFailed

/-! ## streams.ts — constants, state, probes -/

def POLL_INTERVAL_MINUTES : Int := 5
def CONTENT_CHECK_INTERVAL_MINUTES : Int := 20
def LIVE_RECHECK_WHEN_LATE_MINUTES : Int := 2
def LIVE_FALLBACK_CHECK_MINUTES : Int := 30
def MAX_SCHEDULE_AHEAD_MS : Int := 365 * 24 * 60 * 60 * 1000
def MS_PER_MINUTE : Int := 60 * 1000
def MS_PER_DAY : Int := 24 * 60 * 60 * 1000

/-- Per-entity persisted state (`StreamerState` in streams.ts). -/
structure StreamerState where
  lastLive : Bool
  lastStreamId : Option String := none
  lastVideoId : Option String := none
  lastPremiereId : Option String := none
  lastContentCheckAt : Option Int := none
  pendingScheduledStartAt : Option Int := none
  nextLiveCheckAt : Option Int := none
deriving DecidableEq, Repr

/-- Result shape of `checkYouTubeLive` (fail-soft: errors become not-live). -/
structure YtLiveResult where
  isLive : Bool
  videoId : Option String := none
  url : Option String := none
  title : Option String := none
deriving DecidableEq, Repr

/-- Result shape of `checkTwitchLive` (fail-soft: errors become not-live). -/
structure TwitchLiveResult where
  isLive : Bool
  streamId : Option String := none
  url : Option String := none
  title : Option String := none
deriving DecidableEq, Repr

inductive ContentKind
  | video
  | premiere
  | nothing
deriving DecidableEq, Repr

/-- Result shape of `checkYouTubeLatestContent`. -/
structure ContentResult where
  kind : ContentKind
  videoId : Option String := none
  url : Option String := none
  title : Option String := none
  scheduledStartAt : Option Int := none
deriving DecidableEq, Repr

/-- What one invocation of `checkYouTubeLatestContent` does, as an oracle:
a successful probe chain, a non-ok response whose body contains
`quotaExceeded` (sets the process-wide marker and yields `kind: none`), or
any other failure (yields `kind: none` with no marker). -/
inductive ContentOutcome
  | result (r : ContentResult)
  | quotaExceeded
  | failed
deriving DecidableEq, Repr

/-- `blockYouTubeQuotaUntilNextUtcDay`: the next UTC midnight strictly after
`now` (epoch milliseconds, `now ≥ 0` in every reachable run). -/
def nextUtcMidnight (now : Int) : Int :=
  (now / MS_PER_DAY + 1) * MS_PER_DAY

/-- `isYouTubeQuotaBlocked`: reads the marker, deleting it when expired.
Returns (blocked, marker after the read). -/
def isYouTubeQuotaBlockedKV (marker : Option Int) (now : Int) :
    Bool × Option Int :=
  match marker with
  | none => (false, none)
  | some u => if now ≥ u then (false, none) else (true, some u)

/-- `checkYouTubeLatestContent` at the oracle level: the returned result and
the quota marker after the call. -/
def runContentProbe (o : ContentOutcome) (now : Int) (marker : Option Int) :
    ContentResult × Option Int :=
  match o with
  | .result r => (r, marker)
  | .quotaExceeded => ({ kind := .nothing }, some (nextUtcMidnight now))
  | .failed => ({ kind := .nothing }, marker)

/-! ## streams.ts — one poll cycle -/

inductive NotifyKind
  | wentLive (platform : Platform)
  | newVideo
  | newPremiere
deriving DecidableEq, Repr

/-- Outbound calls made during a cycle. A `post` event records one
`channelMessages.create` call together with whether it succeeded. -/
inductive CallEvent
  | ytLiveProbe (externalId : String)
  | ytContentProbe (externalId : String)
  | twitchLiveProbe (externalId : String)
  | post (k : NotifyKind) (externalId : String) (ok : Bool)
deriving DecidableEq, Repr

/-- One subscribed entity together with what the platform probes would
report for it this cycle. -/
structure EntityInput where
  entry : StreamerCatalogEntry
  ytLive : YtLiveResult := { isLive := false }
  ytContent : ContentOutcome := .failed
  twLive : TwitchLiveResult := { isLive := false }

/-- Environment of one cycle (credentials and overrides). -/
structure CycleEnv where
  hasYoutubeApi : Bool
  hasTwitch : Bool
  twitchToken : Option String
  channelId : Option String

/-- Mutable state threaded through the per-entity loop: the in-memory state
map, the quota marker (key `youtube:quotaBlockedUntil`), the local
`youtubeQuotaBlocked` variable, the `stateChanged` flag, and the number of
post attempts so far (indexing the post oracle). -/
structure CycleSt where
  stateMap : List (String × StreamerState)
  marker : Option Int
  quotaBlocked : Bool
  stateChanged : Bool
  nPosts : Nat

/-- Lookup in the JS state object. -/
def mapLookup (m : List (String × StreamerState)) (k : String) :
    Option StreamerState :=
  (m.find? (fun p => p.1 = k)).map Prod.snd

/-- `stateMap[key] = v` on the JS state object. -/
def mapInsert (m : List (String × StreamerState)) (k : String)
    (v : StreamerState) : List (String × StreamerState) :=
  if (m.find? (fun p => p.1 = k)).isSome then
    m.map (fun p => if p.1 = k then (k, v) else p)
  else m ++ [(k, v)]

/-- `!state.nextLiveCheckAt || now >= state.nextLiveCheckAt`. -/
def gatePasses (next : Option Int) (now : Int) : Bool :=
  match next with
  | none => true
  | some v => if v = 0 then true else now ≥ v

/-- `!state.lastContentCheckAt || now - state.lastContentCheckAt >= 20 min`. -/
def contentGate (lastAt : Option Int) (now : Int) : Bool :=
  match lastAt with
  | none => true
  | some v =>
      if v = 0 then true
      else now - v ≥ CONTENT_CHECK_INTERVAL_MINUTES * MS_PER_MINUTE

/-- Live-probe section of the YouTube branch (streams.ts lines 125-146):
run the public live-page probe when the gate passes and post a "went live"
notification on the `lastLive: false` → live observation. A failed post
throws, aborting the rest of the entity's block. -/
structure YtLiveOut where
  live : Option YtLiveResult
  events : List CallEvent
  nPosts : Nat
  aborted : Bool

def ytLiveSection (postOk : Nat → Bool) (now : Int) (eid : String)
    (ytLive : YtLiveResult) (state0 : StreamerState) (n0 : Nat) : YtLiveOut :=
  if gatePasses state0.nextLiveCheckAt now then
    if ytLive.isLive ∧ ¬ state0.lastLive then
      let ok := postOk n0
      { live := some ytLive,
        events := [.ytLiveProbe eid, .post (.wentLive .youtube) eid ok],
        nPosts := n0 + 1, aborted := ¬ ok }
    else
      { live := some ytLive, events := [.ytLiveProbe eid],
        nPosts := n0, aborted := false }
  else
    { live := none, events := [], nPosts := n0, aborted := false }

/-- Accumulator for the content section. -/
structure ContentAcc where
  state : StreamerState
  changed : Bool
  events : List CallEvent
  nPosts : Nat
  aborted : Bool

/-- New-video notification (streams.ts lines 154-168): post first, then
record `lastVideoId`; a failed post aborts before the state mutation. -/
def contentVideoStep (postOk : Nat → Bool) (eid : String) (latest : ContentResult)
    (a : ContentAcc) : ContentAcc :=
  if a.aborted then a
  else if latest.kind = .video ∧ truthyStr latest.videoId ∧
      a.state.lastVideoId ≠ latest.videoId then
    let ok := postOk a.nPosts
    if ok then
      { a with state := { a.state with lastVideoId := latest.videoId },
               changed := true,
               events := a.events ++ [.post .newVideo eid true],
               nPosts := a.nPosts + 1 }
    else
      { a with events := a.events ++ [.post .newVideo eid false],
               nPosts := a.nPosts + 1, aborted := true }
  else a

/-- New-premiere notification (streams.ts lines 170-184). -/
def contentPremiereStep (postOk : Nat → Bool) (eid : String)
    (latest : ContentResult) (a : ContentAcc) : ContentAcc :=
  if a.aborted then a
  else if latest.kind = .premiere ∧ truthyStr latest.videoId ∧
      a.state.lastPremiereId ≠ latest.videoId then
    let ok := postOk a.nPosts
    if ok then
      { a with state := { a.state with lastPremiereId := latest.videoId },
               changed := true,
               events := a.events ++ [.post .newPremiere eid true],
               nPosts := a.nPosts + 1 }
    else
      { a with events := a.events ++ [.post .newPremiere eid false],
               nPosts := a.nPosts + 1, aborted := true }
  else a

/-- Scheduled-premiere bookkeeping (streams.ts lines 186-198). -/
def contentScheduleStep (now : Int) (latest : ContentResult)
    (a : ContentAcc) : ContentAcc :=
  if a.aborted then a
  else if latest.kind = .premiere then
    match latest.scheduledStartAt with
    | some ssa =>
        if ssa = 0 then a
        else
          let aheadMs := ssa - now
          if 0 < aheadMs ∧ aheadMs ≤ MAX_SCHEDULE_AHEAD_MS then
            if a.state.pendingScheduledStartAt ≠ some ssa then
              { a with
                state := { a.state with
                  pendingScheduledStartAt := some ssa,
                  nextLiveCheckAt := some ssa },
                changed := true }
            else a
          else if MAX_SCHEDULE_AHEAD_MS < aheadMs ∧
              truthyInt a.state.pendingScheduledStartAt then
            { a with
              state := { a.state with pendingScheduledStartAt := none },
              changed := true }
          else a
    | none => a
  else a

/-- Quota re-read and `lastContentCheckAt` update (streams.ts lines 200-205). -/
def contentFinishStep (now : Int) (marker : Option Int) (qb : Bool)
    (a : ContentAcc) : ContentAcc × Bool × Option Int :=
  if a.aborted then (a, qb, marker)
  else
    let (qb', m') :=
      if ¬ qb then isYouTubeQuotaBlockedKV marker now else (qb, marker)
    ({ a with state := { a.state with lastContentCheckAt := some now },
              changed := true },
     qb', m')

/-- Content section of the YouTube branch (streams.ts lines 148-206), run
only with an API key, no quota block, and a due content check. -/
structure YtContentOut where
  state : StreamerState
  marker : Option Int
  quotaBlocked : Bool
  changed : Bool
  events : List CallEvent
  nPosts : Nat
  aborted : Bool

def ytContentSection (postOk : Nat → Bool) (now : Int) (eid : String)
    (hasYoutubeApi : Bool) (outcome : ContentOutcome) (state0 : StreamerState)
    (marker0 : Option Int) (qb0 : Bool) (n0 : Nat) : YtContentOut :=
  if hasYoutubeApi ∧ ¬ qb0 ∧ contentGate state0.lastContentCheckAt now then
    let pr := runContentProbe outcome now marker0
    let latest := pr.1
    let m1 := pr.2
    let a0 : ContentAcc :=
      { state := state0, changed := false,
        events := [.ytContentProbe eid], nPosts := n0, aborted := false }
    let a1 := contentVideoStep postOk eid latest a0
    let a2 := contentPremiereStep postOk eid latest a1
    let a3 := contentScheduleStep now latest a2
    let fin := contentFinishStep now m1 qb0 a3
    let a4 := fin.1
    { state := a4.state, marker := fin.2.2, quotaBlocked := fin.2.1,
      changed := a4.changed, events := a4.events, nPosts := a4.nPosts,
      aborted := a4.aborted }
  else
    { state := state0, marker := marker0, quotaBlocked := qb0,
      changed := false, events := [], nPosts := n0, aborted := false }

/-- Live-result state update and adaptive cadence (streams.ts lines 208-236),
run only when the live probe actually ran. Returns the updated state and
whether this section set `stateChanged`. -/
def ytLiveUpdateSection (now : Int) (live : Option YtLiveResult)
    (state : StreamerState) : StreamerState × Bool :=
  match live with
  | none => (state, false)
  | some l =>
      let p :=
        if state.lastLive ≠ l.isLive ∨ state.lastStreamId ≠ l.videoId then
          ({ state with lastLive := l.isLive, lastStreamId := l.videoId }, true)
        else (state, false)
      let s1 := p.1
      let c1 := p.2
      if l.isLive then
        let nextWhileLive := now + POLL_INTERVAL_MINUTES * MS_PER_MINUTE
        if s1.nextLiveCheckAt ≠ some nextWhileLive then
          ({ s1 with nextLiveCheckAt := some nextWhileLive,
                     pendingScheduledStartAt := none }, true)
        else (s1, c1)
      else
        let nextCheck :=
          match s1.pendingScheduledStartAt with
          | some p =>
              if p = 0 then now + LIVE_FALLBACK_CHECK_MINUTES * MS_PER_MINUTE
              else if now ≥ p then
                now + LIVE_RECHECK_WHEN_LATE_MINUTES * MS_PER_MINUTE
              else p
          | none => now + LIVE_FALLBACK_CHECK_MINUTES * MS_PER_MINUTE
        if s1.nextLiveCheckAt ≠ some nextCheck then
          ({ s1 with nextLiveCheckAt := some nextCheck }, true)
        else (s1, c1)

/-- The state key `${s.platform}:${s.externalId}` (raw external id). -/
def stateKeyOf (e : StreamerCatalogEntry) : String :=
  e.platform.str ++ ":" ++ e.externalId

/-- The YouTube branch of the per-entity loop body. An abort (thrown post)
skips the rest of the branch; mutations made before the abort stay visible
through the shared state object exactly when the key was already present in
the map (JS aliasing). -/
def ytStep (postOk : Nat → Bool) (now : Int) (env : CycleEnv)
    (inp : EntityInput) (st : CycleSt) : CycleSt × List CallEvent :=
  let eid := inp.entry.externalId
  let key := stateKeyOf inp.entry
  let found := mapLookup st.stateMap key
  let state0 := found.getD { lastLive := false }
  let keyExisted := found.isSome
  let lo := ytLiveSection postOk now eid inp.ytLive state0 st.nPosts
  if lo.aborted then
    ({ st with nPosts := lo.nPosts }, lo.events)
  else
    let co := ytContentSection postOk now eid env.hasYoutubeApi inp.ytContent
      state0 st.marker st.quotaBlocked lo.nPosts
    if co.aborted then
      ({ st with
          marker := co.marker, quotaBlocked := co.quotaBlocked,
          nPosts := co.nPosts,
          stateChanged := st.stateChanged ∨ co.changed,
          stateMap :=
            if keyExisted then mapInsert st.stateMap key co.state
            else st.stateMap },
       lo.events ++ co.events)
    else
      let upd := ytLiveUpdateSection now lo.live co.state
      ({ st with
          marker := co.marker, quotaBlocked := co.quotaBlocked,
          nPosts := co.nPosts,
          stateChanged := st.stateChanged ∨ co.changed ∨ upd.2,
          stateMap := mapInsert st.stateMap key upd.1 },
       lo.events ++ co.events)

/-- The Twitch branch of the per-entity loop body (streams.ts lines 240-263),
run only with Twitch credentials and a token. -/
def twStep (postOk : Nat → Bool) (env : CycleEnv) (inp : EntityInput)
    (st : CycleSt) : CycleSt × List CallEvent :=
  if env.hasTwitch ∧ truthyStr env.twitchToken then
    let eid := inp.entry.externalId
    let key := stateKeyOf inp.entry
    let found := mapLookup st.stateMap key
    let state0 := found.getD { lastLive := false }
    let l := inp.twLive
    let finish : Nat → List CallEvent → CycleSt × List CallEvent :=
      fun n evs =>
        let p :=
          if state0.lastLive ≠ l.isLive ∨ state0.lastStreamId ≠ l.streamId then
            ({ state0 with lastLive := l.isLive, lastStreamId := l.streamId },
             true)
          else (state0, false)
        ({ st with nPosts := n, stateChanged := st.stateChanged ∨ p.2,
                   stateMap := mapInsert st.stateMap key p.1 }, evs)
    if l.isLive ∧ ¬ state0.lastLive then
      let ok := postOk st.nPosts
      if ok then
        finish (st.nPosts + 1)
          [.twitchLiveProbe eid, .post (.wentLive .twitch) eid true]
      else
        ({ st with nPosts := st.nPosts + 1 },
         [.twitchLiveProbe eid, .post (.wentLive .twitch) eid false])
    else finish st.nPosts [.twitchLiveProbe eid]
  else (st, [])

/-- One iteration of the per-entity loop (the two platform branches are
mutually exclusive; a thrown post is caught here and logged). -/
def entityStep (postOk : Nat → Bool) (now : Int) (env : CycleEnv)
    (st : CycleSt) (inp : EntityInput) : CycleSt × List CallEvent :=
  match inp.entry.platform with
  | .youtube => ytStep postOk now env inp st
  | .twitch => twStep postOk env inp st

/-- The whole per-entity loop, collecting events in order. -/
def runEntities (postOk : Nat → Bool) (now : Int) (env : CycleEnv)
    (entities : List EntityInput) (st : CycleSt) : CycleSt × List CallEvent :=
  match entities with
  | [] => (st, [])
  | e :: rest =>
      let r1 := entityStep postOk now env st e
      let r2 := runEntities postOk now env rest r1.1
      (r2.1, r1.2 ++ r2.2)

/-! ## streams.ts — `runStreamCheck` with its guaranteed reschedule -/

/-- Externally visible actions of one `runStreamCheck` invocation. -/
inductive Action
  | call (e : CallEvent)
  | persistState
  | reschedule (minutes : Int)
deriving DecidableEq, Repr

/-- The whole input of one cycle. `preludeOk = false` injects an exception
thrown before the loop (language/migration/overrides/state read);
`persistOk = false` makes the final key-value write throw. -/
structure CycleInput where
  now : Int
  env : CycleEnv
  entities : List EntityInput
  postOk : Nat → Bool
  stateMap0 : List (String × StreamerState)
  marker0 : Option Int
  preludeOk : Bool := true
  persistOk : Bool := true

/-- The observable outcome of one cycle: the persisted state map (the
in-memory map is written back only when `stateChanged` and the write
succeeded), the quota marker, the actions, and whether the `try` body ran to
completion. -/
structure CycleResult where
  persistedMap : List (String × StreamerState)
  marker : Option Int
  actions : List Action
  completed : Bool

/-- The `try` body of `runStreamCheck` (streams.ts lines 83-280). -/
def runStreamCheckBody (ci : CycleInput) : CycleResult :=
  if ¬ ci.preludeOk then
    ⟨ci.stateMap0, ci.marker0, [], false⟩
  else if ¬ truthyStr ci.env.channelId then
    ⟨ci.stateMap0, ci.marker0, [], true⟩
  else
    let qm :=
      if ci.env.hasYoutubeApi then isYouTubeQuotaBlockedKV ci.marker0 ci.now
      else (true, ci.marker0)
    if ci.entities.isEmpty then ⟨ci.stateMap0, qm.2, [], true⟩
    else if ¬ ci.env.hasTwitch ∧
        ¬ (ci.entities.any (fun e => e.entry.platform = Platform.youtube)) then
      ⟨ci.stateMap0, qm.2, [], true⟩
    else
      let st0 : CycleSt :=
        { stateMap := ci.stateMap0, marker := qm.2, quotaBlocked := qm.1,
          stateChanged := false, nPosts := 0 }
      let r := runEntities ci.postOk ci.now ci.env ci.entities st0
      let stF := r.1
      let acts := r.2.map Action.call
      if stF.stateChanged then
        if ci.persistOk then
          ⟨stF.stateMap, stF.marker, acts ++ [Action.persistState], true⟩
        else
          ⟨ci.stateMap0, stF.marker, acts ++ [Action.persistState], false⟩
      else ⟨ci.stateMap0, stF.marker, acts, true⟩

/-- `runStreamCheck`: the body wrapped in `try … finally
scheduleNextStreamCheck()` — the one-shot job is re-armed for the fixed
5-minute base interval on every exit path. -/
def runStreamCheck (ci : CycleInput) : CycleResult :=
  let body := runStreamCheckBody ci
  { body with
      actions := body.actions ++ [Action.reschedule POLL_INTERVAL_MINUTES] }

/-- Persisted world state between cycles. -/
structure World where
  stateMap : List (String × StreamerState)
  marker : Option Int

/-- Run a sequence of cycles, each given by its clock value and the
entities with their probe outcomes, threading the persisted state. -/
def runCycles (env : CycleEnv) (postOk : Nat → Bool)
    (cycles : List (Int × List EntityInput)) (w : World) :
    World × List Action :=
  match cycles with
  | [] => (w, [])
  | (now, entities) :: rest =>
      let r := runStreamCheck
        { now := now, env := env, entities := entities, postOk := postOk,
          stateMap0 := w.stateMap, marker0 := w.marker }
      let rest' := runCycles env postOk rest ⟨r.persistedMap, r.marker⟩
      (rest'.1, r.actions ++ rest'.2)

/-! ## Event classifiers -/

def isWentLivePost : CallEvent → Bool
  | .post (.wentLive _) _ _ => true
  | _ => false

def isContentProbeEvent : CallEvent → Bool
  | .ytContentProbe _ => true
  | _ => false

/-- Events of the live machinery: live probes and went-live posts. -/
def isLiveRelatedEvent : CallEvent → Bool
  | .ytLiveProbe _ => true
  | .twitchLiveProbe _ => true
  | .post (.wentLive _) _ _ => true
  | _ => false

def isContentProbeAction : Action → Bool
  | .call (.ytContentProbe _) => true
  | _ => false

def isWentLivePostAction : Action → Bool
  | .call e => isWentLivePost e
  | _ => false

def isRescheduleAction : Action → Bool
  | .reschedule _ => true
  | _ => false

/-- Number of went-live post attempts in an action trace. -/
def countWentLive (acts : List Action) : Nat :=
  acts.countP (fun a => isWentLivePostAction a)

/-- Number of catalog rows carrying a given id. -/
def countId (catalog : List StreamerCatalogEntry) (id : String) : Nat :=
  catalog.countP (fun x => x.id = id)

/-- The persisted state an entity starts its loop iteration with
(`stateMap[stateKey] ?? { lastLive: false }`). -/
def entityState (st : CycleSt) (inp : EntityInput) : StreamerState :=
  (mapLookup st.stateMap (stateKeyOf inp.entry)).getD { lastLive := false }

def isYtLiveProbeAction : Action → Bool
  | .call (.ytLiveProbe _) => true
  | _ => false

/-- C1 scenario data: one YouTube entity observed over six cycles. -/
def c1Entry : StreamerCatalogEntry := ⟨"youtube:ucx", .youtube, "UCx", "X"⟩

def c1Entity (b : Bool) : EntityInput :=
  { entry := c1Entry, ytLive := { isLive := b, videoId := some "vid01234567" } }

def c1Env : CycleEnv :=
  { hasYoutubeApi := false, hasTwitch := false, twitchToken := none,
    channelId := some "c" }

/-- Six cycles, 30 minutes apart, with probe outcomes
[not-live, live, live, live, not-live, live]. -/
def c1Cycles : List (Int × List EntityInput) :=
  [(1800000, [c1Entity false]), (3600000, [c1Entity true]),
   (5400000, [c1Entity true]), (7200000, [c1Entity true]),
   (9000000, [c1Entity false]), (10800000, [c1Entity true])]

/-- C2 witness data: a cycle starting while the quota marker (set to epoch
millisecond 7) is still in the future. -/
def c2CycleW : CycleInput :=
  { now := 5, env := ⟨true, false, none, some "c"⟩,
    entities := [⟨⟨"youtube:a", .youtube, "a", "A"⟩, ⟨false, none, none, none⟩,
      .failed, ⟨false, none, none, none⟩⟩],
    postOk := fun _ => true, stateMap0 := [], marker0 := some 7 }

/-! ## Helper lemmas -/

lemma find?_append_of_none {α : Type} {p : α → Bool} {l₁ l₂ : List α}
    (h : l₁.find? p = none) : (l₁ ++ l₂).find? p = l₂.find? p := by
  induction l₁ with
  | nil => rfl
  | cons x xs ih =>
      cases hp : p x with
      | true =>
          rw [List.find?_cons_of_pos _ hp] at h
          exact absurd h (by simp)
      | false =>
          rw [List.find?_cons_of_neg _ (by simp [hp])] at h
          rw [List.cons_append, List.find?_cons_of_neg _ (by simp [hp])]
          exact ih h

lemma updateFirstDisplayName_countId (c : List StreamerCatalogEntry)
    (id d : String) :
    countId (updateFirstDisplayName c id d) id = countId c id := by
  induction c with
  | nil => rfl
  | cons x xs ih =>
      by_cases h : x.id = id
      · simp [updateFirstDisplayName, h, countId, List.countP_cons]
      · simp only [updateFirstDisplayName, if_neg h]
        simp only [countId, List.countP_cons] at ih ⊢
        rw [ih]

lemma updateFirstDisplayName_find (c : List StreamerCatalogEntry)
    (id d : String) (ex : StreamerCatalogEntry)
    (h : c.find? (fun x => x.id = id) = some ex) :
    (updateFirstDisplayName c id d).find? (fun x => x.id = id)
      = some { ex with displayName := d } := by
  induction c with
  | nil => simp at h
  | cons x xs ih =>
      by_cases hx : x.id = id
      · rw [List.find?_cons_of_pos _ (by simp [hx])] at h
        obtain rfl : x = ex := by simpa using h
        simp only [updateFirstDisplayName, if_pos hx]
        exact List.find?_cons_of_pos _ (by simp [hx])
      · rw [List.find?_cons_of_neg _ (by simp [hx])] at h
        simp only [updateFirstDisplayName, if_neg hx]
        rw [List.find?_cons_of_neg _ (by simp [hx])]
        exact ih h

lemma upsert_isNew_false {c : List StreamerCatalogEntry} {p : Platform}
    {e d : String}
    (h : (c.find? (fun x => x.id = makeCatalogId p e)).isSome) :
    (upsertCatalogEntry c p e d).2.2 = false := by
  obtain ⟨ex, hex⟩ := Option.isSome_iff_exists.mp h
  unfold upsertCatalogEntry
  simp only [hex]
  split <;> rfl

lemma upsert_countId (c : List StreamerCatalogEntry) (p : Platform)
    (e d : String) (h : countId c (makeCatalogId p e) ≤ 1) :
    countId (upsertCatalogEntry c p e d).1 (makeCatalogId p e) = 1 := by
  unfold upsertCatalogEntry
  cases hf : c.find? (fun x => x.id = makeCatalogId p e) with
  | none =>
      have h0 : countId c (makeCatalogId p e) = 0 := by
        rw [countId, List.countP_eq_zero]
        intro a ha
        exact List.find?_eq_none.mp hf a ha
      simp only [hf]
      show countId (c ++ [⟨makeCatalogId p e, p, e, d⟩]) (makeCatalogId p e) = 1
      rw [countId, List.countP_append, ← countId, h0]
      simp
  | some ex =>
      have h1 : 0 < countId c (makeCatalogId p e) := by
        rw [countId, List.countP_pos_iff]
        have hp := List.find?_some hf
        exact ⟨ex, List.mem_of_find?_eq_some hf, hp⟩
      simp only [hf]
      split
      · show countId (updateFirstDisplayName c (makeCatalogId p e) d)
          (makeCatalogId p e) = 1
        rw [updateFirstDisplayName_countId]
        omega
      · show countId c (makeCatalogId p e) = 1
        omega

lemma upsert_find?_isSome (c : List StreamerCatalogEntry) (p : Platform)
    (e d : String) :
    ((upsertCatalogEntry c p e d).1.find?
      (fun x => x.id = makeCatalogId p e)).isSome := by
  unfold upsertCatalogEntry
  cases hf : c.find? (fun x => x.id = makeCatalogId p e) with
  | none =>
      simp only [hf]
      rw [find?_append_of_none hf]
      simp
  | some ex =>
      simp only [hf]
      split
      · rw [updateFirstDisplayName_find c _ d ex hf]
        rfl
      · rw [hf]
        rfl

lemma upsert_displayName (c : List StreamerCatalogEntry) (p : Platform)
    (e d : String) (hd : d ≠ "") :
    ((upsertCatalogEntry c p e d).1.find?
        (fun x => x.id = makeCatalogId p e)).map (fun x => x.displayName)
      = some d := by
  unfold upsertCatalogEntry
  cases hf : c.find? (fun x => x.id = makeCatalogId p e) with
  | none =>
      simp only [hf]
      rw [find?_append_of_none hf]
      simp
  | some ex =>
      simp only [hf]
      split
      · rw [updateFirstDisplayName_find c _ d ex hf]
        rfl
      · rename_i hcond
        rw [hf]
        have : ex.displayName = d := by
          by_cases h' : ex.displayName = d
          · exact h'
          · exact absurd ⟨hd, h'⟩ hcond
        simp [this]

lemma upsert_empty_name (c : List StreamerCatalogEntry) (p : Platform)
    (e : String) {ex : StreamerCatalogEntry}
    (h : c.find? (fun x => x.id = makeCatalogId p e) = some ex) :
    (upsertCatalogEntry c p e "").1 = c := by
  unfold upsertCatalogEntry
  simp only [h]
  split
  · rename_i hcond
    exact absurd hcond (by simp)
  · rfl

lemma countP_isReschedule_map_call (evs : List CallEvent) :
    ((evs.map Action.call).countP fun a => isRescheduleAction a) = 0 := by
  induction evs with
  | nil => rfl
  | cons e t ih => simp [List.countP_cons, isRescheduleAction, ih]

lemma runStreamCheckBody_no_reschedule (ci : CycleInput) :
    ((runStreamCheckBody ci).actions.countP fun a => isRescheduleAction a) = 0 := by
  unfold runStreamCheckBody
  repeat' split
  all_goals
    simp [apply_ite CycleResult.actions, apply_ite (List.countP _), ite_self,
      List.countP_append, List.countP_cons, countP_isReschedule_map_call,
      isRescheduleAction]

/-! ## C7 — idempotent upsert by canonical id -/

/-- C7 counterexample: the claim "the second upsert updates the existing
entry's displayName in place when it changed" fails for an empty
displayName. After `upsert(youtube, "X", "A")`, the equivalent upsert
`upsert(youtube, " x ", "")` carries the changed displayName `""` yet
leaves the stored displayName `"A"` and the catalog untouched. -/
theorem c7_counterexample :
    makeCatalogId Platform.youtube " x " = makeCatalogId Platform.youtube "X" ∧
    ("" : String) ≠ "A" ∧
    (upsertCatalogEntry (upsertCatalogEntry [] Platform.youtube "X" "A").1
        Platform.youtube " x " "").2.2 = false ∧
    (upsertCatalogEntry (upsertCatalogEntry [] Platform.youtube "X" "A").1
        Platform.youtube " x " "").1
      = (upsertCatalogEntry [] Platform.youtube "X" "A").1 ∧
    ((upsertCatalogEntry (upsertCatalogEntry [] Platform.youtube "X" "A").1
        Platform.youtube " x " "").1.map (fun x => x.displayName)) = ["A"] := by
  decide

/-- C7 (amended): the catalog id is a pure function of (platform,
externalId) identifying trim-and-case-equivalent external ids; starting
from a catalog with at most one row for the id, two upserts with
equivalent (platform, externalId) leave exactly one row for it and the
second upsert reports `isNew = false`; the second upsert updates the
stored displayName in place when the new displayName is nonempty, while an
empty displayName never overwrites the stored one (JS truthiness guard). -/
theorem c7_idempotent_upsert :
    (∀ (p : Platform) (e₁ e₂ : String), normalizeId e₁ = normalizeId e₂ →
        makeCatalogId p e₁ = makeCatalogId p e₂) ∧
    (∀ (catalog : List StreamerCatalogEntry) (p : Platform) (e₁ d₁ e₂ d₂ : String),
        makeCatalogId p e₂ = makeCatalogId p e₁ →
        countId catalog (makeCatalogId p e₁) ≤ 1 →
        countId (upsertCatalogEntry
            (upsertCatalogEntry catalog p e₁ d₁).1 p e₂ d₂).1
            (makeCatalogId p e₁) = 1 ∧
        (upsertCatalogEntry (upsertCatalogEntry catalog p e₁ d₁).1 p e₂ d₂).2.2
            = false ∧
        (d₂ ≠ "" →
          ((upsertCatalogEntry (upsertCatalogEntry catalog p e₁ d₁).1 p e₂ d₂).1.find?
              (fun x => x.id = makeCatalogId p e₁)).map (fun x => x.displayName)
            = some d₂) ∧
        (d₂ = "" →
          (upsertCatalogEntry (upsertCatalogEntry catalog p e₁ d₁).1 p e₂ d₂).1
            = (upsertCatalogEntry catalog p e₁ d₁).1)) := by
  constructor
  · intro p e₁ e₂ h
    simp [makeCatalogId, h]
  · intro catalog p e₁ d₁ e₂ d₂ heq hcount
    have hc₁ : countId (upsertCatalogEntry catalog p e₁ d₁).1
        (makeCatalogId p e₁) = 1 := upsert_countId catalog p e₁ d₁ hcount
    have hsome : ((upsertCatalogEntry catalog p e₁ d₁).1.find?
        (fun x => x.id = makeCatalogId p e₂)).isSome := by
      rw [heq]
      exact upsert_find?_isSome catalog p e₁ d₁
    refine ⟨?_, ?_, ?_, ?_⟩
    · have := upsert_countId (upsertCatalogEntry catalog p e₁ d₁).1 p e₂ d₂
        (by rw [heq]; omega)
      rw [heq] at this
      exact this
    · exact upsert_isNew_false hsome
    · intro hd
      have := upsert_displayName (upsertCatalogEntry catalog p e₁ d₁).1 p e₂ d₂ hd
      rw [heq] at this
      exact this
    · intro hd
      subst hd
      obtain ⟨ex, hex⟩ := Option.isSome_iff_exists.mp hsome
      exact upsert_empty_name _ p e₂ hex

/-- Witness for C7 (amended) at concrete inputs: upsert "X"/"A" then the
equivalent " x "/"B". -/
theorem c7_idempotent_upsert_witness :
    countId (upsertCatalogEntry
        (upsertCatalogEntry [] Platform.youtube "X" "A").1
        Platform.youtube " x " "B").1 (makeCatalogId Platform.youtube "X") = 1 ∧
    (upsertCatalogEntry (upsertCatalogEntry [] Platform.youtube "X" "A").1
        Platform.youtube " x " "B").2.2 = false := by
  have h := c7_idempotent_upsert.2 [] Platform.youtube "X" "A" " x " "B"
    (by decide) (by decide)
  exact ⟨h.1, h.2.1⟩

/-! ## Engine lemmas: went-live posts -/

lemma ytLiveSection_wentLive_count (postOk : Nat → Bool) (now : Int)
    (eid : String) (ytLive : YtLiveResult) (state0 : StreamerState) (n0 : Nat) :
    ((ytLiveSection postOk now eid ytLive state0 n0).events.countP
        fun e => isWentLivePost e)
      = if gatePasses state0.nextLiveCheckAt now = true ∧ ytLive.isLive = true ∧
          state0.lastLive = false
        then 1 else 0 := by
  unfold ytLiveSection
  repeat' split
  all_goals simp_all [List.countP_cons, isWentLivePost]

lemma contentVideoStep_events_wentLive (postOk : Nat → Bool) (eid : String)
    (latest : ContentResult) (a : ContentAcc) :
    ((contentVideoStep postOk eid latest a).events.countP
        fun e => isWentLivePost e)
      = a.events.countP fun e => isWentLivePost e := by
  unfold contentVideoStep
  repeat' split
  all_goals simp [apply_ite ContentAcc.events, apply_ite (List.countP _),
    List.countP_append, List.countP_cons, isWentLivePost, ite_self]

lemma contentPremiereStep_events_wentLive (postOk : Nat → Bool) (eid : String)
    (latest : ContentResult) (a : ContentAcc) :
    ((contentPremiereStep postOk eid latest a).events.countP
        fun e => isWentLivePost e)
      = a.events.countP fun e => isWentLivePost e := by
  unfold contentPremiereStep
  repeat' split
  all_goals simp [apply_ite ContentAcc.events, apply_ite (List.countP _),
    List.countP_append, List.countP_cons, isWentLivePost, ite_self]

lemma contentScheduleStep_events (now : Int) (latest : ContentResult)
    (a : ContentAcc) : (contentScheduleStep now latest a).events = a.events := by
  unfold contentScheduleStep
  repeat' split
  all_goals simp [apply_ite ContentAcc.events, ite_self]

lemma contentFinishStep_events (now : Int) (marker : Option Int) (qb : Bool)
    (a : ContentAcc) :
    (contentFinishStep now marker qb a).1.events = a.events := by
  unfold contentFinishStep
  repeat' split
  all_goals simp [apply_ite ContentAcc.events, ite_self]

/-- The content section never posts a went-live notification. -/
lemma ytContentSection_no_wentLive (postOk : Nat → Bool) (now : Int)
    (eid : String) (hasYoutubeApi : Bool) (outcome : ContentOutcome)
    (state0 : StreamerState) (marker0 : Option Int) (qb0 : Bool) (n0 : Nat) :
    ((ytContentSection postOk now eid hasYoutubeApi outcome state0 marker0
        qb0 n0).events.countP fun e => isWentLivePost e) = 0 := by
  unfold ytContentSection
  split
  · dsimp only
    rw [contentFinishStep_events, contentScheduleStep_events,
      contentPremiereStep_events_wentLive, contentVideoStep_events_wentLive]
    simp [List.countP_cons, isWentLivePost]
  · rfl

/-- Went-live post attempts of the YouTube branch: exactly one when the
live gate passes, the probe reports live, and the persisted `lastLive` is
false; none otherwise. -/
lemma ytStep_wentLive_count (postOk : Nat → Bool) (now : Int) (env : CycleEnv)
    (inp : EntityInput) (st : CycleSt) :
    ((ytStep postOk now env inp st).2.countP fun e => isWentLivePost e)
      = if gatePasses (entityState st inp).nextLiveCheckAt now = true ∧
          inp.ytLive.isLive = true ∧ (entityState st inp).lastLive = false
        then 1 else 0 := by
  unfold ytStep
  dsimp only
  simp only [apply_ite (@Prod.snd CycleSt (List CallEvent)),
    apply_ite (List.countP fun e => isWentLivePost e),
    List.countP_append, ytContentSection_no_wentLive,
    ytLiveSection_wentLive_count, Nat.add_zero, ite_self]
  rfl

/-- Went-live post attempts of the Twitch branch: exactly one when the
probe reports live and the persisted `lastLive` is false. -/
lemma twStep_wentLive_count (postOk : Nat → Bool) (env : CycleEnv)
    (inp : EntityInput) (st : CycleSt)
    (h1 : env.hasTwitch = true) (h2 : truthyStr env.twitchToken = true) :
    ((twStep postOk env inp st).2.countP fun e => isWentLivePost e)
      = if inp.twLive.isLive = true ∧ (entityState st inp).lastLive = false
        then 1 else 0 := by
  unfold twStep
  rw [if_pos ⟨h1, h2⟩]
  dsimp only
  repeat' split
  all_goals simp_all [List.countP_cons, isWentLivePost, entityState]

/-! ## C1 — went-live fires exactly on the false-to-true transition -/

/-- C1: a "went live" notification is posted exactly when the probe ran
and reported live while the persisted state had `lastLive = false`, for
both platform branches — a repeat live observation (`lastLive = true`)
never re-notifies; and the probe sequence
[not-live, live, live, live, not-live, live] over six cycles, with the
live probe running on every cycle, posts exactly 2 "went live"
notifications. -/
theorem c1_went_live_on_transition :
    (∀ (postOk : Nat → Bool) (now : Int) (env : CycleEnv) (inp : EntityInput)
        (st : CycleSt),
        ((ytStep postOk now env inp st).2.countP fun e => isWentLivePost e)
          = if gatePasses (entityState st inp).nextLiveCheckAt now = true ∧
              inp.ytLive.isLive = true ∧ (entityState st inp).lastLive = false
            then 1 else 0) ∧
    (∀ (postOk : Nat → Bool) (env : CycleEnv) (inp : EntityInput)
        (st : CycleSt), env.hasTwitch = true → truthyStr env.twitchToken = true →
        ((twStep postOk env inp st).2.countP fun e => isWentLivePost e)
          = if inp.twLive.isLive = true ∧ (entityState st inp).lastLive = false
            then 1 else 0) ∧
    countWentLive (runCycles c1Env (fun _ => true) c1Cycles ⟨[], none⟩).2 = 2 ∧
    ((runCycles c1Env (fun _ => true) c1Cycles ⟨[], none⟩).2.countP
        fun a => isYtLiveProbeAction a) = 6 := by
  refine ⟨ytStep_wentLive_count, twStep_wentLive_count, by decide, by decide⟩

/-- Witness for C1: the Twitch-branch count at one concrete live
transition. -/
theorem c1_went_live_on_transition_witness :
    ((twStep (fun _ => true) ⟨false, true, some "t", some "c"⟩
        ⟨⟨"twitch:42", .twitch, "42", "T"⟩, ⟨false, none, none, none⟩,
         .failed, ⟨true, some "s", none, none⟩⟩
        ⟨[], none, false, false, 0⟩).2.countP fun e => isWentLivePost e) = 1 := by
  have h := c1_went_live_on_transition.2.1 (fun _ => true)
    ⟨false, true, some "t", some "c"⟩
    ⟨⟨"twitch:42", .twitch, "42", "T"⟩, ⟨false, none, none, none⟩,
     .failed, ⟨true, some "s", none, none⟩⟩
    ⟨[], none, false, false, 0⟩ rfl (by decide)
  rw [h]
  decide

/-! ## Engine lemmas: quota backoff -/

lemma lt_nextUtcMidnight (now : Int) : now < nextUtcMidnight now := by
  unfold nextUtcMidnight MS_PER_DAY
  omega

lemma ytLiveSection_no_content (postOk : Nat → Bool) (now : Int) (eid : String)
    (ytLive : YtLiveResult) (state0 : StreamerState) (n0 : Nat) :
    ((ytLiveSection postOk now eid ytLive state0 n0).events.countP
        fun e => isContentProbeEvent e) = 0 := by
  unfold ytLiveSection
  repeat' split
  all_goals simp [List.countP_cons, isContentProbeEvent]

lemma ytContentSection_blocked (postOk : Nat → Bool) (now : Int) (eid : String)
    (hasYoutubeApi : Bool) (outcome : ContentOutcome) (state0 : StreamerState)
    (marker0 : Option Int) (n0 : Nat) :
    ytContentSection postOk now eid hasYoutubeApi outcome state0 marker0 true n0
      = { state := state0, marker := marker0, quotaBlocked := true,
          changed := false, events := [], nPosts := n0, aborted := false } := by
  unfold ytContentSection
  rw [if_neg]
  simp

lemma twStep_preserves_quota (postOk : Nat → Bool) (env : CycleEnv)
    (inp : EntityInput) (st : CycleSt) :
    (twStep postOk env inp st).1.quotaBlocked = st.quotaBlocked ∧
    (twStep postOk env inp st).1.marker = st.marker ∧
    ((twStep postOk env inp st).2.countP fun e => isContentProbeEvent e) = 0 := by
  refine ⟨?_, ?_, ?_⟩
  all_goals unfold twStep
  all_goals dsimp only
  all_goals repeat' split
  all_goals simp [List.countP_cons, isContentProbeEvent]

lemma ytStep_blocked (postOk : Nat → Bool) (now : Int) (env : CycleEnv)
    (inp : EntityInput) (st : CycleSt) (hqb : st.quotaBlocked = true) :
    (ytStep postOk now env inp st).1.quotaBlocked = true ∧
    (ytStep postOk now env inp st).1.marker = st.marker ∧
    ((ytStep postOk now env inp st).2.countP fun e => isContentProbeEvent e)
      = 0 := by
  unfold ytStep
  dsimp only
  rw [hqb, ytContentSection_blocked]
  split
  · exact ⟨by simp [hqb], by simp, ytLiveSection_no_content _ _ _ _ _ _⟩
  · refine ⟨by simp, by simp, ?_⟩
    rw [List.append_nil]
    exact ytLiveSection_no_content _ _ _ _ _ _

lemma entityStep_blocked (postOk : Nat → Bool) (now : Int) (env : CycleEnv)
    (st : CycleSt) (inp : EntityInput) (hqb : st.quotaBlocked = true) :
    (entityStep postOk now env st inp).1.quotaBlocked = true ∧
    (entityStep postOk now env st inp).1.marker = st.marker ∧
    ((entityStep postOk now env st inp).2.countP
        fun e => isContentProbeEvent e) = 0 := by
  unfold entityStep
  cases inp.entry.platform with
  | youtube => exact ytStep_blocked postOk now env inp st hqb
  | twitch =>
      refine ⟨?_, ?_, ?_⟩
      · rw [(twStep_preserves_quota postOk env inp st).1, hqb]
      · exact (twStep_preserves_quota postOk env inp st).2.1
      · exact (twStep_preserves_quota postOk env inp st).2.2

lemma runEntities_blocked (postOk : Nat → Bool) (now : Int) (env : CycleEnv)
    (entities : List EntityInput) (st : CycleSt) (hqb : st.quotaBlocked = true) :
    (runEntities postOk now env entities st).1.quotaBlocked = true ∧
    (runEntities postOk now env entities st).1.marker = st.marker ∧
    ((runEntities postOk now env entities st).2.countP
        fun e => isContentProbeEvent e) = 0 := by
  induction entities generalizing st with
  | nil => exact ⟨hqb, rfl, by simp [runEntities]⟩
  | cons e rest ih =>
      have h1 := entityStep_blocked postOk now env st e hqb
      have h2 := ih (entityStep postOk now env st e).1 h1.1
      unfold runEntities
      dsimp only
      refine ⟨h2.1, h2.2.1.trans h1.2.1, ?_⟩
      rw [List.countP_append, h1.2.2, h2.2.2]

lemma ytContentSection_quota (postOk : Nat → Bool) (now : Int) (eid : String)
    (state0 : StreamerState) (marker0 : Option Int) (n0 : Nat)
    (hgate : contentGate state0.lastContentCheckAt now = true) :
    ytContentSection postOk now eid true ContentOutcome.quotaExceeded state0
        marker0 false n0
      = { state := { state0 with lastContentCheckAt := some now },
          marker := some (nextUtcMidnight now), quotaBlocked := true,
          changed := true, events := [CallEvent.ytContentProbe eid],
          nPosts := n0, aborted := false } := by
  have hlt : ¬ (now ≥ nextUtcMidnight now) := not_le.mpr (lt_nextUtcMidnight now)
  unfold ytContentSection
  rw [if_pos ⟨rfl, by simp, hgate⟩]
  dsimp only [runContentProbe]
  simp [contentVideoStep, contentPremiereStep, contentScheduleStep,
    contentFinishStep, isYouTubeQuotaBlockedKV, hlt]

lemma ytStep_quota_exceeded (postOk : Nat → Bool) (now : Int) (env : CycleEnv)
    (inp : EntityInput) (st : CycleSt) (hok : ∀ n, postOk n = true)
    (hqb : st.quotaBlocked = false) (hapi : env.hasYoutubeApi = true)
    (hgate : contentGate (entityState st inp).lastContentCheckAt now = true)
    (hc : inp.ytContent = ContentOutcome.quotaExceeded) :
    (ytStep postOk now env inp st).1.quotaBlocked = true ∧
    (ytStep postOk now env inp st).1.marker = some (nextUtcMidnight now) ∧
    ((ytStep postOk now env inp st).2.countP
        fun e => isContentProbeEvent e) = 1 := by
  have hnab : (ytLiveSection postOk now inp.entry.externalId inp.ytLive
      (entityState st inp) st.nPosts).aborted = false := by
    unfold ytLiveSection
    repeat' split
    all_goals simp [hok]
  unfold ytStep
  dsimp only
  rw [show (mapLookup st.stateMap (stateKeyOf inp.entry)).getD
      { lastLive := false } = entityState st inp from rfl]
  rw [hnab, hapi, hqb, hc, ytContentSection_quota _ _ _ _ _ _ hgate]
  refine ⟨by simp, by simp, ?_⟩
  have hF : ¬ (false = true) := by decide
  rw [if_neg hF, if_neg hF, List.countP_append, ytLiveSection_no_content]
  simp [isContentProbeEvent]

lemma countP_contentAction_map_call (evs : List CallEvent) :
    ((evs.map Action.call).countP fun a => isContentProbeAction a)
      = evs.countP fun e => isContentProbeEvent e := by
  induction evs with
  | nil => rfl
  | cons e t ih =>
      rw [List.map_cons, List.countP_cons, List.countP_cons, ih]
      cases e <;> rfl

lemma runStreamCheck_marker_blocked (ci : CycleInput) (u : Int)
    (hm : ci.marker0 = some u) (hnow : ci.now < u)
    (hapi : ci.env.hasYoutubeApi = true) :
    ((runStreamCheck ci).actions.countP fun a => isContentProbeAction a)
      = 0 := by
  have hkv : isYouTubeQuotaBlockedKV ci.marker0 ci.now = (true, some u) := by
    rw [hm]
    unfold isYouTubeQuotaBlockedKV
    dsimp only
    rw [if_neg (not_le.mpr hnow)]
  unfold runStreamCheck runStreamCheckBody
  dsimp only
  rw [hapi, if_pos rfl, hkv]
  dsimp only
  have hb := runEntities_blocked ci.postOk ci.now ci.env ci.entities
    ⟨ci.stateMap0, some u, true, false, 0⟩ rfl
  repeat' split
  all_goals
    first
      | (rw [List.countP_append, List.countP_append,
            countP_contentAction_map_call, hb.2.2]
         simp [isContentProbeAction])
      | (rw [List.countP_append, countP_contentAction_map_call, hb.2.2]
         simp [isContentProbeAction])
      | simp [isContentProbeAction]

lemma contentVideoStep_filter_live (postOk : Nat → Bool) (eid : String)
    (latest : ContentResult) (a : ContentAcc) :
    ((contentVideoStep postOk eid latest a).events.filter
        fun e => isLiveRelatedEvent e)
      = a.events.filter fun e => isLiveRelatedEvent e := by
  unfold contentVideoStep
  repeat' split
  all_goals simp [apply_ite ContentAcc.events, apply_ite (List.filter _),
    List.filter_append, isLiveRelatedEvent, ite_self]

lemma contentPremiereStep_filter_live (postOk : Nat → Bool) (eid : String)
    (latest : ContentResult) (a : ContentAcc) :
    ((contentPremiereStep postOk eid latest a).events.filter
        fun e => isLiveRelatedEvent e)
      = a.events.filter fun e => isLiveRelatedEvent e := by
  unfold contentPremiereStep
  repeat' split
  all_goals simp [apply_ite ContentAcc.events, apply_ite (List.filter _),
    List.filter_append, isLiveRelatedEvent, ite_self]

lemma ytContentSection_filter_live (postOk : Nat → Bool) (now : Int)
    (eid : String) (hasYoutubeApi : Bool) (outcome : ContentOutcome)
    (state0 : StreamerState) (marker0 : Option Int) (qb0 : Bool) (n0 : Nat) :
    ((ytContentSection postOk now eid hasYoutubeApi outcome state0 marker0
        qb0 n0).events.filter fun e => isLiveRelatedEvent e) = [] := by
  unfold ytContentSection
  split
  · dsimp only
    rw [contentFinishStep_events, contentScheduleStep_events,
      contentPremiereStep_filter_live, contentVideoStep_filter_live]
    simp [isLiveRelatedEvent]
  · rfl

/-- The live-related events of a YouTube step are exactly those of its live
section, which depends only on the clock, the probe result, the persisted
per-entity state, and the post counter — not on the quota marker or the
`youtubeQuotaBlocked` flag. -/
lemma ytStep_liveEvents (postOk : Nat → Bool) (now : Int) (env : CycleEnv)
    (inp : EntityInput) (st : CycleSt) :
    ((ytStep postOk now env inp st).2.filter fun e => isLiveRelatedEvent e)
      = ((ytLiveSection postOk now inp.entry.externalId inp.ytLive
          (entityState st inp) st.nPosts).events.filter
            fun e => isLiveRelatedEvent e) := by
  unfold ytStep
  dsimp only
  rw [show (mapLookup st.stateMap (stateKeyOf inp.entry)).getD
      { lastLive := false } = entityState st inp from rfl]
  split
  · rfl
  · simp [apply_ite (@Prod.snd CycleSt (List CallEvent)), ite_self,
      List.filter_append, ytContentSection_filter_live]

/-! ## Engine lemmas: final per-entity state -/

lemma find?_map_replace (m : List (String × StreamerState)) (k : String)
    (v : StreamerState)
    (h : (m.find? fun p => p.1 = k).isSome = true) :
    (m.map fun p => if p.1 = k then (k, v) else p).find? (fun p => p.1 = k)
      = some (k, v) := by
  induction m with
  | nil => simp at h
  | cons p t ih =>
      by_cases hp : p.1 = k
      · rw [List.map_cons, if_pos hp, List.find?_cons_of_pos _ (by simp)]
      · rw [List.map_cons, if_neg hp, List.find?_cons_of_neg _ (by simp [hp])]
        apply ih
        rw [List.find?_cons_of_neg _ (by simp [hp])] at h
        exact h

lemma mapLookup_mapInsert (m : List (String × StreamerState)) (k : String)
    (v : StreamerState) : mapLookup (mapInsert m k v) k = some v := by
  unfold mapInsert
  split
  · rename_i h
    unfold mapLookup
    rw [find?_map_replace m k v h]
    rfl
  · rename_i h
    have h0 : (m.find? fun p => p.1 = k) = none := by
      cases hf : (m.find? fun p => p.1 = k) with
      | none => rfl
      | some x => rw [hf] at h; simp at h
    unfold mapLookup
    rw [find?_append_of_none h0]
    simp

lemma ytLiveSection_spec (postOk : Nat → Bool) (now : Int) (eid : String)
    (ytLive : YtLiveResult) (state0 : StreamerState) (n0 : Nat)
    (hok : ∀ n, postOk n = true) :
    (ytLiveSection postOk now eid ytLive state0 n0).aborted = false ∧
    (ytLiveSection postOk now eid ytLive state0 n0).live
      = (if gatePasses state0.nextLiveCheckAt now = true
         then some ytLive else none) := by
  unfold ytLiveSection
  repeat' split
  all_goals simp_all [hok]

lemma contentVideoStep_preserves (postOk : Nat → Bool) (eid : String)
    (latest : ContentResult) (a : ContentAcc) (hok : ∀ n, postOk n = true) :
    (contentVideoStep postOk eid latest a).aborted = a.aborted ∧
    (contentVideoStep postOk eid latest a).state.pendingScheduledStartAt
      = a.state.pendingScheduledStartAt ∧
    (contentVideoStep postOk eid latest a).state.nextLiveCheckAt
      = a.state.nextLiveCheckAt := by
  unfold contentVideoStep
  repeat' split
  all_goals simp_all [hok]

lemma contentPremiereStep_preserves (postOk : Nat → Bool) (eid : String)
    (latest : ContentResult) (a : ContentAcc) (hok : ∀ n, postOk n = true) :
    (contentPremiereStep postOk eid latest a).aborted = a.aborted ∧
    (contentPremiereStep postOk eid latest a).state.pendingScheduledStartAt
      = a.state.pendingScheduledStartAt ∧
    (contentPremiereStep postOk eid latest a).state.nextLiveCheckAt
      = a.state.nextLiveCheckAt := by
  unfold contentPremiereStep
  repeat' split
  all_goals simp_all [hok]

lemma contentScheduleStep_aborted (now : Int) (latest : ContentResult)
    (a : ContentAcc) : (contentScheduleStep now latest a).aborted = a.aborted := by
  unfold contentScheduleStep
  repeat' split
  all_goals simp [apply_ite ContentAcc.aborted, ite_self]

lemma contentFinishStep_preserves (now : Int) (marker : Option Int) (qb : Bool)
    (a : ContentAcc) :
    (contentFinishStep now marker qb a).1.aborted = a.aborted ∧
    (contentFinishStep now marker qb a).1.state.pendingScheduledStartAt
      = a.state.pendingScheduledStartAt ∧
    (contentFinishStep now marker qb a).1.state.nextLiveCheckAt
      = a.state.nextLiveCheckAt := by
  unfold contentFinishStep
  repeat' split
  all_goals simp

lemma contentScheduleStep_sets (now : Int) (latest : ContentResult)
    (a : ContentAcc) (ssa : Int)
    (hkind : latest.kind = ContentKind.premiere)
    (hssa : latest.scheduledStartAt = some ssa) (h0 : ssa ≠ 0)
    (hlo : 0 < ssa - now) (hhi : ssa - now ≤ MAX_SCHEDULE_AHEAD_MS)
    (hpend : a.state.pendingScheduledStartAt ≠ some ssa)
    (hab : a.aborted = false) :
    (contentScheduleStep now latest a).state.pendingScheduledStartAt = some ssa ∧
    (contentScheduleStep now latest a).state.nextLiveCheckAt = some ssa := by
  unfold contentScheduleStep
  rw [hab, hkind, hssa]
  have hF : ¬ (false = true) := by decide
  rw [if_neg hF, if_pos rfl]
  dsimp only
  rw [if_neg h0, if_pos ⟨hlo, hhi⟩, if_pos hpend]
  exact ⟨rfl, rfl⟩

lemma ytContentSection_not_aborted (postOk : Nat → Bool) (now : Int)
    (eid : String) (hasYoutubeApi : Bool) (outcome : ContentOutcome)
    (state0 : StreamerState) (marker0 : Option Int) (qb0 : Bool) (n0 : Nat)
    (hok : ∀ n, postOk n = true) :
    (ytContentSection postOk now eid hasYoutubeApi outcome state0 marker0
        qb0 n0).aborted = false := by
  unfold ytContentSection
  split
  · dsimp only
    rw [(contentFinishStep_preserves _ _ _ _).1, contentScheduleStep_aborted,
      (contentPremiereStep_preserves _ _ _ _ hok).1,
      (contentVideoStep_preserves _ _ _ _ hok).1]
  · rfl

lemma ytContentSection_premiere (postOk : Nat → Bool) (now : Int) (eid : String)
    (outcome : ContentOutcome) (r : ContentResult) (state0 : StreamerState)
    (marker0 : Option Int) (n0 : Nat) (ssa : Int)
    (hok : ∀ n, postOk n = true)
    (hgate : contentGate state0.lastContentCheckAt now = true)
    (ho : outcome = ContentOutcome.result r)
    (hkind : r.kind = ContentKind.premiere)
    (hssa : r.scheduledStartAt = some ssa) (h0 : ssa ≠ 0)
    (hlo : 0 < ssa - now) (hhi : ssa - now ≤ MAX_SCHEDULE_AHEAD_MS)
    (hpend : state0.pendingScheduledStartAt ≠ some ssa) :
    (ytContentSection postOk now eid true outcome state0 marker0
        false n0).state.pendingScheduledStartAt = some ssa ∧
    (ytContentSection postOk now eid true outcome state0 marker0
        false n0).state.nextLiveCheckAt = some ssa := by
  unfold ytContentSection
  rw [if_pos ⟨rfl, by simp, hgate⟩, ho]
  dsimp only [runContentProbe]
  have hv := contentVideoStep_preserves postOk eid r
    { state := state0, changed := false, events := [CallEvent.ytContentProbe eid],
      nPosts := n0, aborted := false } hok
  have hp := contentPremiereStep_preserves postOk eid r
    (contentVideoStep postOk eid r
      { state := state0, changed := false, events := [CallEvent.ytContentProbe eid],
        nPosts := n0, aborted := false }) hok
  have hs := contentScheduleStep_sets now r
    (contentPremiereStep postOk eid r
      (contentVideoStep postOk eid r
        { state := state0, changed := false,
          events := [CallEvent.ytContentProbe eid], nPosts := n0,
          aborted := false })) ssa hkind hssa h0 hlo hhi
    (by rw [hp.2.1, hv.2.1]; exact hpend)
    (by rw [hp.1, hv.1])
  have hf := contentFinishStep_preserves now marker0 false
    (contentScheduleStep now r
      (contentPremiereStep postOk eid r
        (contentVideoStep postOk eid r
          { state := state0, changed := false,
            events := [CallEvent.ytContentProbe eid], nPosts := n0,
            aborted := false })))
  exact ⟨by rw [hf.2.1, hs.1], by rw [hf.2.2, hs.2]⟩

lemma ytLiveUpdateSection_notLive (now : Int) (l : YtLiveResult)
    (state : StreamerState) (hl : l.isLive = false) :
    (ytLiveUpdateSection now (some l) state).1.nextLiveCheckAt
      = some (match state.pendingScheduledStartAt with
          | some p =>
              if p = 0 then now + LIVE_FALLBACK_CHECK_MINUTES * MS_PER_MINUTE
              else if now ≥ p then
                now + LIVE_RECHECK_WHEN_LATE_MINUTES * MS_PER_MINUTE
              else p
          | none => now + LIVE_FALLBACK_CHECK_MINUTES * MS_PER_MINUTE) ∧
    (ytLiveUpdateSection now (some l) state).1.pendingScheduledStartAt
      = state.pendingScheduledStartAt := by
  unfold ytLiveUpdateSection
  dsimp only
  rw [hl]
  have hF : ¬ (false = true) := by decide
  rw [if_neg hF]
  repeat' split
  all_goals try simp_all
  all_goals omega

lemma ytLiveUpdateSection_live (now : Int) (l : YtLiveResult)
    (state : StreamerState) (hl : l.isLive = true) :
    (ytLiveUpdateSection now (some l) state).1.nextLiveCheckAt
      = some (now + POLL_INTERVAL_MINUTES * MS_PER_MINUTE) := by
  unfold ytLiveUpdateSection
  dsimp only
  rw [hl, if_pos rfl]
  repeat' split
  all_goals simp_all

lemma ytStep_final_state (postOk : Nat → Bool) (now : Int) (env : CycleEnv)
    (inp : EntityInput) (st : CycleSt) (hok : ∀ n, postOk n = true) :
    mapLookup (ytStep postOk now env inp st).1.stateMap (stateKeyOf inp.entry)
      = some ((ytLiveUpdateSection now
          (ytLiveSection postOk now inp.entry.externalId inp.ytLive
            (entityState st inp) st.nPosts).live
          (ytContentSection postOk now inp.entry.externalId env.hasYoutubeApi
            inp.ytContent (entityState st inp) st.marker st.quotaBlocked
            (ytLiveSection postOk now inp.entry.externalId inp.ytLive
              (entityState st inp) st.nPosts).nPosts).state).1) := by
  have hlo := (ytLiveSection_spec postOk now inp.entry.externalId inp.ytLive
    (entityState st inp) st.nPosts hok).1
  have hco := ytContentSection_not_aborted postOk now inp.entry.externalId
    env.hasYoutubeApi inp.ytContent (entityState st inp) st.marker
    st.quotaBlocked (ytLiveSection postOk now inp.entry.externalId inp.ytLive
      (entityState st inp) st.nPosts).nPosts hok
  unfold ytStep
  dsimp only
  rw [show (mapLookup st.stateMap (stateKeyOf inp.entry)).getD
      { lastLive := false } = entityState st inp from rfl]
  rw [hlo, hco]
  have hF : ¬ (false = true) := by decide
  rw [if_neg hF, if_neg hF]
  exact mapLookup_mapInsert _ _ _

lemma ytLiveSection_probe_mem (postOk : Nat → Bool) (now : Int) (eid : String)
    (ytLive : YtLiveResult) (state0 : StreamerState) (n0 : Nat) :
    (CallEvent.ytLiveProbe eid
        ∈ (ytLiveSection postOk now eid ytLive state0 n0).events)
      ↔ gatePasses state0.nextLiveCheckAt now = true := by
  unfold ytLiveSection
  repeat' split
  all_goals simp_all

lemma ytStep_probe_mem (postOk : Nat → Bool) (now : Int) (env : CycleEnv)
    (inp : EntityInput) (st : CycleSt) :
    (CallEvent.ytLiveProbe inp.entry.externalId
        ∈ (ytStep postOk now env inp st).2)
      ↔ gatePasses (entityState st inp).nextLiveCheckAt now = true := by
  have hnc : CallEvent.ytLiveProbe inp.entry.externalId ∉
      (ytContentSection postOk now inp.entry.externalId env.hasYoutubeApi
        inp.ytContent (entityState st inp) st.marker st.quotaBlocked
        (ytLiveSection postOk now inp.entry.externalId inp.ytLive
          (entityState st inp) st.nPosts).nPosts).events := by
    intro hmem
    have h2 : CallEvent.ytLiveProbe inp.entry.externalId ∈
        ((ytContentSection postOk now inp.entry.externalId env.hasYoutubeApi
          inp.ytContent (entityState st inp) st.marker st.quotaBlocked
          (ytLiveSection postOk now inp.entry.externalId inp.ytLive
            (entityState st inp) st.nPosts).nPosts).events.filter
          fun e => isLiveRelatedEvent e) :=
      List.mem_filter.mpr ⟨hmem, rfl⟩
    rw [ytContentSection_filter_live] at h2
    exact absurd h2 (List.not_mem_nil _)
  unfold ytStep
  dsimp only
  rw [show (mapLookup st.stateMap (stateKeyOf inp.entry)).getD
      { lastLive := false } = entityState st inp from rfl]
  split
  · exact ytLiveSection_probe_mem _ _ _ _ _ _
  · simp only [apply_ite (@Prod.snd CycleSt (List CallEvent)), ite_self,
      List.mem_append]
    rw [ytLiveSection_probe_mem]
    simp [hnc]

lemma gatePasses_iff (next : Option Int) (now : Int) (h : 0 ≤ now) :
    gatePasses next now = true ↔
      (next = none ∨ ∃ v, next = some v ∧ now ≥ v) := by
  cases next with
  | none => simp [gatePasses]
  | some v =>
      unfold gatePasses
      by_cases hv : v = 0
      · subst hv
        simp
        exact h
      · simp [hv]

/-! ## C6 — adaptive cadence of the YouTube live probe -/

/-- C6: per YouTube entity and cycle — the live probe runs exactly when
`nextLiveCheckAt` is unset or `now` has reached it; a newly observed
premiere scheduled strictly in the future by at most one year records
`pendingScheduledStartAt` and moves `nextLiveCheckAt` to that timestamp;
after a not-live probe the next check is 2 minutes away when the pending
scheduled start has passed, the pending start itself when still in the
future, and 30 minutes away with no pending premiere; after a live probe
the next check is 5 minutes away. -/
theorem c6_adaptive_cadence :
    (∀ (postOk : Nat → Bool) (now : Int) (env : CycleEnv) (inp : EntityInput)
        (st : CycleSt), 0 ≤ now →
        ((CallEvent.ytLiveProbe inp.entry.externalId
            ∈ (ytStep postOk now env inp st).2) ↔
          ((entityState st inp).nextLiveCheckAt = none ∨
           ∃ v, (entityState st inp).nextLiveCheckAt = some v ∧ now ≥ v))) ∧
    (∀ (postOk : Nat → Bool) (now : Int) (env : CycleEnv) (inp : EntityInput)
        (st : CycleSt) (r : ContentResult) (ssa : Int),
        (∀ n, postOk n = true) → st.quotaBlocked = false →
        env.hasYoutubeApi = true →
        contentGate (entityState st inp).lastContentCheckAt now = true →
        inp.ytContent = ContentOutcome.result r →
        r.kind = ContentKind.premiere → r.scheduledStartAt = some ssa →
        ssa ≠ 0 → 0 < ssa - now → ssa - now ≤ MAX_SCHEDULE_AHEAD_MS →
        (entityState st inp).pendingScheduledStartAt ≠ some ssa →
        inp.ytLive.isLive = false →
        ∀ s, mapLookup (ytStep postOk now env inp st).1.stateMap
            (stateKeyOf inp.entry) = some s →
          s.pendingScheduledStartAt = some ssa ∧
          s.nextLiveCheckAt = some ssa) ∧
    (∀ (postOk : Nat → Bool) (now : Int) (env : CycleEnv) (inp : EntityInput)
        (st : CycleSt), (∀ n, postOk n = true) →
        gatePasses (entityState st inp).nextLiveCheckAt now = true →
        inp.ytLive.isLive = false →
        ∀ s, mapLookup (ytStep postOk now env inp st).1.stateMap
            (stateKeyOf inp.entry) = some s →
          (s.pendingScheduledStartAt = none →
            s.nextLiveCheckAt
              = some (now + LIVE_FALLBACK_CHECK_MINUTES * MS_PER_MINUTE)) ∧
          (∀ v, s.pendingScheduledStartAt = some v → v ≠ 0 → now ≥ v →
            s.nextLiveCheckAt
              = some (now + LIVE_RECHECK_WHEN_LATE_MINUTES * MS_PER_MINUTE)) ∧
          (∀ v, s.pendingScheduledStartAt = some v → v ≠ 0 → now < v →
            s.nextLiveCheckAt = some v)) ∧
    (∀ (postOk : Nat → Bool) (now : Int) (env : CycleEnv) (inp : EntityInput)
        (st : CycleSt), (∀ n, postOk n = true) →
        gatePasses (entityState st inp).nextLiveCheckAt now = true →
        inp.ytLive.isLive = true →
        ∀ s, mapLookup (ytStep postOk now env inp st).1.stateMap
            (stateKeyOf inp.entry) = some s →
          s.nextLiveCheckAt
            = some (now + POLL_INTERVAL_MINUTES * MS_PER_MINUTE)) := by
  refine ⟨?_, ?_, ?_, ?_⟩
  · intro postOk now env inp st hnow
    rw [ytStep_probe_mem]
    exact gatePasses_iff _ now hnow
  · intro postOk now env inp st r ssa hok hqb hapi hcg ho hkind hssa h0 hlo
      hhi hpend hl s hs
    have hfin := ytStep_final_state postOk now env inp st hok
    rw [hfin] at hs
    replace hs := Option.some.inj hs
    rw [← hs]
    rw [hapi, hqb,
      (ytLiveSection_spec postOk now inp.entry.externalId inp.ytLive
        (entityState st inp) st.nPosts hok).2]
    have hcs := ytContentSection_premiere postOk now inp.entry.externalId
      inp.ytContent r (entityState st inp) st.marker
      (ytLiveSection postOk now inp.entry.externalId inp.ytLive
        (entityState st inp) st.nPosts).nPosts ssa hok hcg ho hkind hssa h0
      hlo hhi hpend
    by_cases hg : gatePasses (entityState st inp).nextLiveCheckAt now = true
    · rw [if_pos hg]
      have hupd := ytLiveUpdateSection_notLive now inp.ytLive
        (ytContentSection postOk now inp.entry.externalId true inp.ytContent
          (entityState st inp) st.marker false
          (ytLiveSection postOk now inp.entry.externalId inp.ytLive
            (entityState st inp) st.nPosts).nPosts).state hl
      refine ⟨by rw [hupd.2]; exact hcs.1, ?_⟩
      rw [hupd.1, hcs.1]
      dsimp only
      rw [if_neg h0, if_neg (by omega : ¬ now ≥ ssa)]
    · rw [if_neg hg]
      dsimp only [ytLiveUpdateSection]
      exact ⟨hcs.1, hcs.2⟩
  · intro postOk now env inp st hok hg hl s hs
    have hfin := ytStep_final_state postOk now env inp st hok
    rw [hfin] at hs
    replace hs := Option.some.inj hs
    rw [← hs]
    rw [(ytLiveSection_spec postOk now inp.entry.externalId inp.ytLive
      (entityState st inp) st.nPosts hok).2, if_pos hg]
    have hupd := ytLiveUpdateSection_notLive now inp.ytLive
      (ytContentSection postOk now inp.entry.externalId env.hasYoutubeApi
        inp.ytContent (entityState st inp) st.marker st.quotaBlocked
        (ytLiveSection postOk now inp.entry.externalId inp.ytLive
          (entityState st inp) st.nPosts).nPosts).state hl
    refine ⟨?_, ?_, ?_⟩
    · intro hp
      rw [hupd.2] at hp
      rw [hupd.1, hp]
    · intro v hp hv0 hge
      rw [hupd.2] at hp
      rw [hupd.1, hp]
      dsimp only
      rw [if_neg hv0, if_pos hge]
    · intro v hp hv0 hlt
      rw [hupd.2] at hp
      rw [hupd.1, hp]
      dsimp only
      rw [if_neg hv0, if_neg (by omega : ¬ now ≥ v)]
  · intro postOk now env inp st hok hg hl s hs
    have hfin := ytStep_final_state postOk now env inp st hok
    rw [hfin] at hs
    replace hs := Option.some.inj hs
    rw [← hs]
    rw [(ytLiveSection_spec postOk now inp.entry.externalId inp.ytLive
      (entityState st inp) st.nPosts hok).2, if_pos hg]
    exact ytLiveUpdateSection_live now inp.ytLive _ hl

/-- Witness for C6: a live observation at a concrete input schedules the
next live check 5 minutes out. -/
theorem c6_adaptive_cadence_witness :
    ((mapLookup (ytStep (fun _ => true) 0 ⟨false, false, none, some "c"⟩
        ⟨⟨"youtube:ucx", .youtube, "UCx", "X"⟩, ⟨true, some "vid", none, none⟩,
         .failed, ⟨false, none, none, none⟩⟩
        ⟨[], none, false, false, 0⟩).1.stateMap
        ("youtube:UCx")).map fun s => s.nextLiveCheckAt)
      = some (some 300000) := by
  have h := c6_adaptive_cadence.2.2.2 (fun _ => true) 0
    ⟨false, false, none, some "c"⟩
    ⟨⟨"youtube:ucx", .youtube, "UCx", "X"⟩, ⟨true, some "vid", none, none⟩,
     .failed, ⟨false, none, none, none⟩⟩
    ⟨[], none, false, false, 0⟩ (fun _ => rfl) (by decide) rfl
  cases hl : mapLookup (ytStep (fun _ => true) 0 ⟨false, false, none, some "c"⟩
      ⟨⟨"youtube:ucx", .youtube, "UCx", "X"⟩, ⟨true, some "vid", none, none⟩,
       .failed, ⟨false, none, none, none⟩⟩
      ⟨[], none, false, false, 0⟩).1.stateMap ("youtube:UCx") with
  | none => exact absurd hl (by decide)
  | some s =>
      show some s.nextLiveCheckAt = some (some 300000)
      rw [h s hl]
      decide

/-! ## C2 — quota backoff until next UTC midnight -/

/-- C2: a quota-exceeded response during a YouTube content probe sets the
blocked-until-next-UTC-midnight marker and flips the cycle-local blocked
flag, so the content probe of every later entity in the same cycle is
skipped; any cycle starting before the marker expires makes no content
probe call for any entity; and the live-probe machinery (live probes and
went-live posts) is unaffected by the marker and blocked flag. -/
theorem c2_quota_backoff :
    (∀ (postOk : Nat → Bool) (now : Int) (env : CycleEnv) (inp : EntityInput)
        (st : CycleSt), (∀ n, postOk n = true) → st.quotaBlocked = false →
        env.hasYoutubeApi = true →
        contentGate (entityState st inp).lastContentCheckAt now = true →
        inp.ytContent = ContentOutcome.quotaExceeded →
        (ytStep postOk now env inp st).1.quotaBlocked = true ∧
        (ytStep postOk now env inp st).1.marker = some (nextUtcMidnight now) ∧
        ((ytStep postOk now env inp st).2.countP
            fun e => isContentProbeEvent e) = 1) ∧
    (∀ (postOk : Nat → Bool) (now : Int) (env : CycleEnv)
        (entities : List EntityInput) (st : CycleSt), st.quotaBlocked = true →
        ((runEntities postOk now env entities st).2.countP
            fun e => isContentProbeEvent e) = 0 ∧
        (runEntities postOk now env entities st).1.quotaBlocked = true ∧
        (runEntities postOk now env entities st).1.marker = st.marker) ∧
    (∀ (ci : CycleInput) (u : Int), ci.marker0 = some u → ci.now < u →
        ci.env.hasYoutubeApi = true →
        ((runStreamCheck ci).actions.countP
            fun a => isContentProbeAction a) = 0) ∧
    (∀ (postOk : Nat → Bool) (now : Int) (env : CycleEnv) (inp : EntityInput)
        (st₁ st₂ : CycleSt), st₁.stateMap = st₂.stateMap →
        st₁.nPosts = st₂.nPosts →
        ((ytStep postOk now env inp st₁).2.filter
            fun e => isLiveRelatedEvent e)
          = ((ytStep postOk now env inp st₂).2.filter
              fun e => isLiveRelatedEvent e)) := by
  refine ⟨ytStep_quota_exceeded, ?_, runStreamCheck_marker_blocked, ?_⟩
  · intro postOk now env entities st hqb
    have h := runEntities_blocked postOk now env entities st hqb
    exact ⟨h.2.2, h.1, h.2.1⟩
  · intro postOk now env inp st₁ st₂ hmap hn
    have hes : entityState st₁ inp = entityState st₂ inp := by
      unfold entityState mapLookup
      rw [hmap]
    rw [ytStep_liveEvents, ytStep_liveEvents, hes, hn]

/-- Witness for C2: a cycle under a future marker makes no content probe
call, and a concrete quota-exceeded probe sets the marker to the next UTC
midnight. -/
theorem c2_quota_backoff_witness :
    ((runStreamCheck c2CycleW).actions.countP
        fun a => isContentProbeAction a) = 0 ∧
    (ytStep (fun _ => true) 5 ⟨true, false, none, some "c"⟩
        ⟨⟨"youtube:a", .youtube, "a", "A"⟩, ⟨false, none, none, none⟩,
         .quotaExceeded, ⟨false, none, none, none⟩⟩
        ⟨[], none, false, false, 0⟩).1.marker = some 86400000 := by
  constructor
  · exact c2_quota_backoff.2.2.1 c2CycleW 7 rfl (by decide) rfl
  · have h := c2_quota_backoff.1 (fun _ => true) 5 ⟨true, false, none, some "c"⟩
      ⟨⟨"youtube:a", .youtube, "a", "A"⟩, ⟨false, none, none, none⟩,
       ContentOutcome.quotaExceeded, ⟨false, none, none, none⟩⟩
      ⟨[], none, false, false, 0⟩ (fun _ => rfl) rfl rfl (by decide) rfl
    rw [h.2.1]
    decide

/-! ## C3 — a failed notification post does NOT commit the transition -/

/-- C3 counterexample: one cycle for a Twitch entity on the
`lastLive: false` → live transition with a failing message post. The post
is attempted and fails, yet the persisted state still has
`lastLive = false` — the already-computed transition is rolled up in the
thrown post (the state mutation sits after the post in program order), so
nothing is committed, contradicting the claimed at-most-once behavior. -/
theorem c3_counterexample :
    (let e42 : EntityInput :=
      ⟨⟨"twitch:42", .twitch, "42", "T"⟩, ⟨false, none, none, none⟩,
       .failed, ⟨true, some "s1", none, none⟩⟩
     let ci : CycleInput :=
      { now := 0, env := ⟨false, true, some "t", some "c"⟩,
        entities := [e42], postOk := fun _ => false,
        stateMap0 := [("twitch:42", { lastLive := false })], marker0 := none }
     (runStreamCheck ci).actions.countP (fun a => isWentLivePostAction a) = 1 ∧
     Action.call (CallEvent.post (NotifyKind.wentLive Platform.twitch) "42"
        false) ∈ (runStreamCheck ci).actions ∧
     (mapLookup (runStreamCheck ci).persistedMap "twitch:42").map
        (fun s => s.lastLive) = some false) := by
  decide

/-- C3 (amended): when a went-live notification post fails, the failure is
caught per entity and the state transition is NOT committed — the step
leaves the state map untouched and only records the failed post (the
transition is computed after the post attempt) — so the notification is
re-attempted on a later cycle (at-least-once, not at-most-once), and a
failing entity does not prevent later entities from being processed. -/
theorem c3_post_failure_no_commit :
    (∀ (postOk : Nat → Bool) (env : CycleEnv) (inp : EntityInput)
        (st : CycleSt), env.hasTwitch = true →
        truthyStr env.twitchToken = true → inp.twLive.isLive = true →
        (entityState st inp).lastLive = false → postOk st.nPosts = false →
        twStep postOk env inp st
          = ({ st with nPosts := st.nPosts + 1 },
             [CallEvent.twitchLiveProbe inp.entry.externalId,
              CallEvent.post (NotifyKind.wentLive Platform.twitch)
                inp.entry.externalId false])) ∧
    (∀ (postOk : Nat → Bool) (now : Int) (env : CycleEnv) (inp : EntityInput)
        (st : CycleSt),
        gatePasses (entityState st inp).nextLiveCheckAt now = true →
        inp.ytLive.isLive = true → (entityState st inp).lastLive = false →
        postOk st.nPosts = false →
        ytStep postOk now env inp st
          = ({ st with nPosts := st.nPosts + 1 },
             [CallEvent.ytLiveProbe inp.entry.externalId,
              CallEvent.post (NotifyKind.wentLive Platform.youtube)
                inp.entry.externalId false])) ∧
    (let e42 : EntityInput :=
      ⟨⟨"twitch:42", .twitch, "42", "T"⟩, ⟨false, none, none, none⟩,
       .failed, ⟨true, some "s1", none, none⟩⟩
     let ci1 : CycleInput :=
      { now := 0, env := ⟨false, true, some "t", some "c"⟩,
        entities := [e42], postOk := fun _ => false,
        stateMap0 := [("twitch:42", { lastLive := false })], marker0 := none }
     let ci2 : CycleInput :=
      { now := 300000, env := ⟨false, true, some "t", some "c"⟩,
        entities := [e42], postOk := fun _ => true,
        stateMap0 := (runStreamCheck ci1).persistedMap, marker0 := none }
     Action.call (CallEvent.post (NotifyKind.wentLive Platform.twitch) "42"
        true) ∈ (runStreamCheck ci2).actions) ∧
    (let e42 : EntityInput :=
      ⟨⟨"twitch:42", .twitch, "42", "T"⟩, ⟨false, none, none, none⟩,
       .failed, ⟨true, some "s1", none, none⟩⟩
     let e43 : EntityInput :=
      ⟨⟨"twitch:43", .twitch, "43", "U"⟩, ⟨false, none, none, none⟩,
       .failed, ⟨false, none, none, none⟩⟩
     let ci3 : CycleInput :=
      { now := 0, env := ⟨false, true, some "t", some "c"⟩,
        entities := [e42, e43], postOk := fun _ => false,
        stateMap0 := [("twitch:42", { lastLive := false })], marker0 := none }
     Action.call (CallEvent.twitchLiveProbe "43")
        ∈ (runStreamCheck ci3).actions) := by
  refine ⟨?_, ?_, by decide, by decide⟩
  · intro postOk env inp st h1 h2 hl hnl hp
    unfold twStep
    rw [if_pos ⟨h1, h2⟩]
    dsimp only
    rw [show (mapLookup st.stateMap (stateKeyOf inp.entry)).getD
        { lastLive := false } = entityState st inp from rfl, hl, hnl, hp]
    simp
  · intro postOk now env inp st hg hl hnl hp
    have hsec : ytLiveSection postOk now inp.entry.externalId inp.ytLive
        (entityState st inp) st.nPosts
        = { live := some inp.ytLive,
            events := [CallEvent.ytLiveProbe inp.entry.externalId,
              CallEvent.post (NotifyKind.wentLive Platform.youtube)
                inp.entry.externalId false],
            nPosts := st.nPosts + 1, aborted := true } := by
      unfold ytLiveSection
      rw [if_pos hg, hl, hnl, hp]
      simp
    unfold ytStep
    dsimp only
    rw [show (mapLookup st.stateMap (stateKeyOf inp.entry)).getD
        { lastLive := false } = entityState st inp from rfl, hsec]
    simp

/-- Witness for C3 (amended) at one concrete failing post. -/
theorem c3_post_failure_no_commit_witness :
    (twStep (fun _ => false) ⟨false, true, some "t", some "c"⟩
        ⟨⟨"twitch:42", .twitch, "42", "T"⟩, ⟨false, none, none, none⟩,
         .failed, ⟨true, some "s1", none, none⟩⟩
        ⟨[("twitch:42", { lastLive := false })], none, false, false, 0⟩).1.stateMap
      = [("twitch:42", { lastLive := false })] := by
  have h := c3_post_failure_no_commit.1 (fun _ => false)
    ⟨false, true, some "t", some "c"⟩
    ⟨⟨"twitch:42", .twitch, "42", "T"⟩, ⟨false, none, none, none⟩,
     .failed, ⟨true, some "s1", none, none⟩⟩
    ⟨[("twitch:42", { lastLive := false })], none, false, false, 0⟩
    rfl (by decide) rfl (by decide) rfl
  rw [h]

/-! ## C4 — resolver precedence -/

/-- C4: `resolveStreamerInput` follows the ordered precedence. A recognized
platform URL shape fixes the platform, overriding any `yt:`/`tw:` hint;
with a known platform only that platform's resolver runs; otherwise a
`UC` + 22-word-character input resolves via YouTube; otherwise a purely
numeric input resolves via Twitch only, through the numeric-id endpoint
(never any YouTube lookup); otherwise both platforms are queried, a single
match wins, no match fails, and a double match prefers Twitch exactly when
the input is a syntactically valid Twitch login, else YouTube. -/
theorem c4_resolver_precedence (env : ResolverEnv) (raw : String) :
    (resolverInputOf raw ≠ "" →
      (parseKnownUrl (parseHint raw).query).platform = some Platform.twitch →
      resolveStreamerInput env raw
        = (resolveTwitch env (resolverInputOf raw),
           [ResolverCall.twitch (resolverInputOf raw)])) ∧
    (resolverInputOf raw ≠ "" →
      (parseKnownUrl (parseHint raw).query).platform = some Platform.youtube →
      resolveStreamerInput env raw
        = (resolveYouTube env (resolverInputOf raw),
           [ResolverCall.youtube (resolverInputOf raw)])) ∧
    (resolverInputOf raw ≠ "" → resolverHintOf raw = some Platform.youtube →
      resolveStreamerInput env raw
        = (resolveYouTube env (resolverInputOf raw),
           [ResolverCall.youtube (resolverInputOf raw)])) ∧
    (resolverInputOf raw ≠ "" → resolverHintOf raw = some Platform.twitch →
      resolveStreamerInput env raw
        = (resolveTwitch env (resolverInputOf raw),
           [ResolverCall.twitch (resolverInputOf raw)])) ∧
    (resolverInputOf raw ≠ "" → resolverHintOf raw = none →
      isYouTubeChannelId (resolverInputOf raw) = true →
      resolveStreamerInput env raw
        = (resolveYouTube env (resolverInputOf raw),
           [ResolverCall.youtube (resolverInputOf raw)])) ∧
    (resolverInputOf raw ≠ "" → resolverHintOf raw = none →
      isYouTubeChannelId (resolverInputOf raw) = false →
      isNumericStr (resolverInputOf raw) = true →
      resolveStreamerInput env raw
        = (resolveTwitch env (resolverInputOf raw),
           [ResolverCall.twitch (resolverInputOf raw)])) ∧
    (∀ (env₁ env₂ : ResolverEnv) (q : String), isNumericStr q = true →
      env₁.twitchClientId = env₂.twitchClientId →
      env₁.twitchClientSecret = env₂.twitchClientSecret →
      env₁.twitchToken = env₂.twitchToken →
      env₁.twitchUsers (TwitchQuery.byId q)
          = env₂.twitchUsers (TwitchQuery.byId q) →
      resolveTwitch env₁ q = resolveTwitch env₂ q) ∧
    (resolverInputOf raw ≠ "" → resolverHintOf raw = none →
      isYouTubeChannelId (resolverInputOf raw) = false →
      isNumericStr (resolverInputOf raw) = false →
      (resolveStreamerInput env raw).2
          = [ResolverCall.twitch (resolverInputOf raw),
             ResolverCall.youtube (resolverInputOf raw)] ∧
      (∀ t, resolveTwitch env (resolverInputOf raw) = some t →
        resolveYouTube env (resolverInputOf raw) = none →
        (resolveStreamerInput env raw).1 = some t) ∧
      (∀ y, resolveTwitch env (resolverInputOf raw) = none →
        resolveYouTube env (resolverInputOf raw) = some y →
        (resolveStreamerInput env raw).1 = some y) ∧
      (resolveTwitch env (resolverInputOf raw) = none →
        resolveYouTube env (resolverInputOf raw) = none →
        (resolveStreamerInput env raw).1 = none) ∧
      (∀ t y, resolveTwitch env (resolverInputOf raw) = some t →
        resolveYouTube env (resolverInputOf raw) = some y →
        (resolveStreamerInput env raw).1
          = if isTwitchLoginShape (resolverInputOf raw) = true
            then some t else some y)) := by
  refine ⟨?_, ?_, ?_, ?_, ?_, ?_, ?_, ?_⟩
  · intro hin hurl
    simp only [resolverInputOf] at hin ⊢
    simp only [resolveStreamerInput, hurl, Option.some_orElse]
    rw [if_neg hin]
    simp
  · intro hin hurl
    simp only [resolverInputOf] at hin ⊢
    simp only [resolveStreamerInput, hurl, Option.some_orElse]
    rw [if_neg hin]
    simp
  · intro hin hh
    unfold resolverHintOf at hh
    simp only [resolverInputOf] at hin ⊢
    simp only [resolveStreamerInput, hh]
    rw [if_neg hin]
    simp
  · intro hin hh
    unfold resolverHintOf at hh
    simp only [resolverInputOf] at hin ⊢
    simp only [resolveStreamerInput, hh]
    rw [if_neg hin]
    simp
  · intro hin hh hyc
    unfold resolverHintOf at hh
    simp only [resolverInputOf] at hin hyc ⊢
    simp only [resolveStreamerInput, hh]
    rw [if_neg hin]
    simp [hyc]
  · intro hin hh hyc hnum
    unfold resolverHintOf at hh
    simp only [resolverInputOf] at hin hyc hnum ⊢
    simp only [resolveStreamerInput, hh]
    rw [if_neg hin]
    simp [hyc, hnum]
  · intro env₁ env₂ q hnum h1 h2 h3 h4
    simp only [resolveTwitch, hnum, h1, h2, h3, if_pos, if_true]
    rw [h4]
  · intro hin hh hyc hnum
    unfold resolverHintOf at hh
    simp only [resolverInputOf] at hin hyc hnum ⊢
    simp only [resolveStreamerInput, hh]
    rw [if_neg hin]
    simp only [hyc, hnum]
    refine ⟨?_, ?_, ?_, ?_, ?_⟩
    · simp
      split <;> simp
    · intro t ht hy
      simp [ht, hy]
    · intro y ht hy
      simp [ht, hy]
    · intro ht hy
      simp [ht, hy]
    · intro t y ht hy
      simp [ht, hy]

/-- Witness for C4 at concrete inputs: a Twitch URL overriding a YouTube
hint, and a purely numeric input resolving via Twitch only. -/
theorem c4_resolver_precedence_witness :
    resolveStreamerInput resolverEnvW "yt:twitch.tv/somename"
        = (some ⟨Platform.twitch, "77", "SomeName"⟩,
           [ResolverCall.twitch "somename"]) ∧
    resolveStreamerInput resolverEnvW "123456"
        = (none, [ResolverCall.twitch "123456"]) := by
  constructor
  · have h := (c4_resolver_precedence resolverEnvW "yt:twitch.tv/somename").1
      (by decide) (by decide)
    rw [h]
    decide
  · have h := (c4_resolver_precedence resolverEnvW "123456").2.2.2.2.2.1
      (by decide) (by decide) (by decide) (by decide)
    rw [h]
    decide

/-! ## C5 — failure reporting distinguishes unavailability from not-found -/

/-- C5 counterexample: with a usable YouTube key but no Twitch credentials,
the input `"abcde"` queries both platforms, YouTube is usable and finds no
match — "genuinely not found" under the claim's definition — yet the
caller's failure branch reports API unavailability (naming Twitch), not
the not-found outcome the claim requires. -/
theorem c5_counterexample :
    (let env : ResolverEnv :=
      { twitchClientId := none, twitchClientSecret := none,
        twitchToken := none, twitchUsers := fun _ => none,
        youtubeApiKey := some "k", ytChannelById := fun _ => none,
        ytSearch := fun _ => none, quotaMarker := none, now := 0 }
     (resolveStreamerInput env "abcde").1 = none ∧
     ResolverCall.youtube "abcde" ∈ (resolveStreamerInput env "abcde").2 ∧
     isYouTubeApiUnavailableForLookup env = false ∧
     addStreamerFailureReport env
        = ResolveFailReport.apiUnavailable ["Twitch"] ∧
     addStreamerFailureReport env ≠ ResolveFailReport.resolveFailed) := by
  decide

/-- C5 (amended): on a failed resolution the caller reports not-found
exactly when *every* platform has usable credentials (a usable but
unmatched platform does not force not-found when the other platform is
unusable); otherwise it reports unavailability naming the unusable
platforms; and a platform lookup without credentials is a non-match
(`null`), never an exception. -/
theorem c5_failure_reporting :
    (∀ env : ResolverEnv,
        addStreamerFailureReport env = ResolveFailReport.resolveFailed ↔
          getUnavailableApisForResolve env = []) ∧
    (∀ env : ResolverEnv,
        getUnavailableApisForResolve env = [] ↔
          (isYouTubeApiUnavailableForLookup env = false ∧
           truthyStr env.twitchClientId = true ∧
           truthyStr env.twitchClientSecret = true ∧
           truthyStr env.twitchToken = true)) ∧
    (∀ (env : ResolverEnv) (q : String),
        (¬ truthyStr env.twitchClientId = true ∨
         ¬ truthyStr env.twitchClientSecret = true) →
        resolveTwitch env q = none) ∧
    (∀ (env : ResolverEnv) (q : String),
        ¬ truthyStr env.youtubeApiKey = true → resolveYouTube env q = none) := by
  refine ⟨?_, ?_, ?_, ?_⟩
  · intro env
    by_cases h : getUnavailableApisForResolve env = [] <;>
      simp [addStreamerFailureReport, h]
  · intro env
    unfold getUnavailableApisForResolve
    by_cases h1 : isYouTubeApiUnavailableForLookup env = true <;>
      by_cases h2 : (¬ truthyStr env.twitchClientId = true ∨
        ¬ truthyStr env.twitchClientSecret = true) <;>
      by_cases h3 : truthyStr env.twitchToken = true <;>
      simp [h1, h2, h3]
  · intro env q h
    unfold resolveTwitch
    rw [if_pos]
    simpa using h
  · intro env q h
    unfold resolveYouTube
    rw [if_pos]
    simpa using h

/-- Witness for C5 (amended): with all credentials present and no quota
marker the failure branch reports not-found, and without Twitch
credentials `resolveTwitch` is a non-match. -/
theorem c5_failure_reporting_witness :
    (let envOk : ResolverEnv :=
      { twitchClientId := some "i", twitchClientSecret := some "s",
        twitchToken := some "t", twitchUsers := fun _ => none,
        youtubeApiKey := some "k", ytChannelById := fun _ => none,
        ytSearch := fun _ => none, quotaMarker := none, now := 0 }
     addStreamerFailureReport envOk = ResolveFailReport.resolveFailed) ∧
    (let envNoTw : ResolverEnv :=
      { twitchClientId := none, twitchClientSecret := some "s",
        twitchToken := none, twitchUsers := fun _ => none,
        youtubeApiKey := some "k", ytChannelById := fun _ => none,
        ytSearch := fun _ => none, quotaMarker := none, now := 0 }
     resolveTwitch envNoTw "abc" = none) := by
  constructor
  · exact (c5_failure_reporting.1 _).mpr (by decide)
  · exact c5_failure_reporting.2.2.1 _ "abc" (by decide)

/-! ## C9 — the reschedule can never be skipped -/

/-- C9: every invocation of `runStreamCheck` re-arms the one-shot scheduler
for the 5-minute base interval exactly once, as its final action, on every
execution path: normal completion, the early returns (no channel, no
entities, no usable platform), an exception before the loop, per-entity
failures, and a thrown persistence write. -/
theorem c9_reschedule_always (ci : CycleInput) :
    ((runStreamCheck ci).actions.countP fun a => isRescheduleAction a) = 1 ∧
    (runStreamCheck ci).actions.getLast?
      = some (Action.reschedule POLL_INTERVAL_MINUTES) := by
  constructor
  · simp only [runStreamCheck]
    rw [List.countP_append, runStreamCheckBody_no_reschedule]
    rfl
  · simp only [runStreamCheck]
    exact List.getLast?_concat _

/-! ## C8 — unsubscribe by 1-based index -/

/-- C8: `unsubscribeCommunityEntryByIndex` with 1-based index `n + 1` in
range removes exactly the element at position `n`, keeping the rest in
order, and returns the catalog entry of the removed id; an out-of-range
index is a no-op returning `none`; and the A, B, C scenario behaves as
specified (remove index 2 twice returns B then C). -/
theorem c8_unsubscribe_index :
    (∀ (subs : List String) (catalog : List StreamerCatalogEntry) (n : Nat),
        n < subs.length →
        (unsubscribeCommunityEntryByIndex subs catalog ((n : Int) + 1)).1
            = subs.take n ++ subs.drop (n + 1) ∧
        ∀ rid, subs.get? n = some rid →
          (unsubscribeCommunityEntryByIndex subs catalog ((n : Int) + 1)).2
              = catalog.find? (fun x => x.id = rid)) ∧
    (∀ subs catalog (index : Int), index < 1 ∨ (subs.length : Int) < index →
        unsubscribeCommunityEntryByIndex subs catalog index = (subs, none)) ∧
    (let catalogABC : List StreamerCatalogEntry :=
      [⟨"a", .youtube, "a", "A"⟩, ⟨"b", .twitch, "b", "B"⟩,
       ⟨"c", .youtube, "c", "C"⟩]
     let s1 := (subscribeCatalogEntry [] "a").1
     let s2 := (subscribeCatalogEntry s1 "b").1
     let s3 := (subscribeCatalogEntry s2 "c").1
     let r1 := unsubscribeCommunityEntryByIndex s3 catalogABC 2
     let r2 := unsubscribeCommunityEntryByIndex r1.1 catalogABC 2
     r1 = (["a", "c"], some ⟨"b", .twitch, "b", "B"⟩) ∧
     r2 = (["a"], some ⟨"c", .youtube, "c", "C"⟩)) := by
  refine ⟨?_, ?_, by decide⟩
  · intro subs catalog n hn
    have hcond : ¬ ((n : Int) + 1 - 1 < 0 ∨
        (subs.length : Int) ≤ (n : Int) + 1 - 1) := by
      push_neg
      constructor <;> omega
    have htn : ((n : Int) + 1 - 1).toNat = n := by omega
    constructor
    · simp only [unsubscribeCommunityEntryByIndex, if_neg hcond, htn]
      exact List.eraseIdx_eq_take_drop_succ subs n
    · intro rid hrid
      simp only [unsubscribeCommunityEntryByIndex, if_neg hcond, htn, hrid]
  · intro subs catalog index h
    have hcond : index - 1 < 0 ∨ (subs.length : Int) ≤ index - 1 := by omega
    simp only [unsubscribeCommunityEntryByIndex, if_pos hcond]

/-- Witness for C8 at a concrete in-range and a concrete out-of-range input. -/
theorem c8_unsubscribe_index_witness :
    (unsubscribeCommunityEntryByIndex ["x", "y"]
        [⟨"y", .twitch, "y", "Y"⟩] ((1 : Int) + 1)).1 = ["x"] ∧
    unsubscribeCommunityEntryByIndex ["x", "y"] [] 3 = (["x", "y"], none) := by
  refine ⟨?_, ?_⟩
  · have h := (c8_unsubscribe_index.1 ["x", "y"] [⟨"y", .twitch, "y", "Y"⟩] 1
      (by decide)).1
    simpa using h
  · exact c8_unsubscribe_index.2.1 ["x", "y"] [] 3 (by norm_num)

/-! ## C10 — listing omits dangling ids; indexes can diverge -/

/-- C10: `getCommunityCatalogEntries` returns, in subscription order, the
catalog entries of the subscribed ids, silently omitting subscribed ids
with no catalog entry; every returned entry comes from some subscribed id;
and with a dangling id the 1-based listing position differs from the raw
index `unsubscribeCommunityEntryByIndex` uses: the catalog entry listed
first is removed by index 2, while index 1 removes the dangling id and
returns `none`. -/
theorem c10_listing_omits_dangling :
    (∀ catalog (id : String) subs, lastById catalog id = none →
        getCommunityCatalogEntries catalog (id :: subs)
          = getCommunityCatalogEntries catalog subs) ∧
    (∀ catalog (id : String) subs e, lastById catalog id = some e →
        getCommunityCatalogEntries catalog (id :: subs)
          = e :: getCommunityCatalogEntries catalog subs) ∧
    (∀ catalog subs e, e ∈ getCommunityCatalogEntries catalog subs →
        ∃ id ∈ subs, lastById catalog id = some e) ∧
    (let catA : List StreamerCatalogEntry := [⟨"youtube:a", .youtube, "a", "A"⟩]
     let subs : List String := ["dangling", "youtube:a"]
     getCommunityCatalogEntries catA subs = [⟨"youtube:a", .youtube, "a", "A"⟩] ∧
     unsubscribeCommunityEntryByIndex subs catA 1 = (["youtube:a"], none) ∧
     unsubscribeCommunityEntryByIndex subs catA 2
       = (["dangling"], some ⟨"youtube:a", .youtube, "a", "A"⟩)) := by
  refine ⟨?_, ?_, ?_, by decide⟩
  · intro catalog id subs h
    simp [getCommunityCatalogEntries, h, List.reduceOption_cons_of_none]
  · intro catalog id subs e h
    simp [getCommunityCatalogEntries, h, List.reduceOption_cons_of_some]
  · intro catalog subs
    induction subs with
    | nil => simp [getCommunityCatalogEntries]
    | cons a t ih =>
        intro e he
        cases h : lastById catalog a with
        | none =>
            simp only [getCommunityCatalogEntries, List.map_cons, h,
              List.reduceOption_cons_of_none] at he
            obtain ⟨id, hid, hlast⟩ := ih e he
            exact ⟨id, List.mem_cons_of_mem _ hid, hlast⟩
        | some x =>
            simp only [getCommunityCatalogEntries, List.map_cons, h,
              List.reduceOption_cons_of_some, List.mem_cons] at he
            rcases he with rfl | he
            · exact ⟨a, List.mem_cons_self _ _, h⟩
            · obtain ⟨id, hid, hlast⟩ := ih e he
              exact ⟨id, List.mem_cons_of_mem _ hid, hlast⟩

/-- Witness for C10 at concrete inputs with and without a dangling id. -/
theorem c10_listing_omits_dangling_witness :
    getCommunityCatalogEntries [⟨"k", .twitch, "k", "K"⟩] ["gone", "k"]
      = [⟨"k", .twitch, "k", "K"⟩] := by
  have h1 := c10_listing_omits_dangling.1 [⟨"k", .twitch, "k", "K"⟩] "gone" ["k"]
    (by decide)
  have h2 := c10_listing_omits_dangling.2.1 [⟨"k", .twitch, "k", "K"⟩] "k" []
    ⟨"k", .twitch, "k", "K"⟩ (by decide)
  rw [h1, h2]
  decide

end RootBot
